import Mathlib

/-!
Verification model of the SovereignWallet polkascan-pre-explorer-api read layer.

The definitions below are shallow embeddings of the Python sources
`app/resources/polkascan.py` and `app/utils/jwt_validator.py`.
Python strings are modelled as `List Char` (byte-oriented; exact for the
ASCII data that all identifiers in this system consist of), JSON values as
the inductive `JValue`, fallible Python code (index errors, hex decoding
errors, uncaught exceptions) as `Option` or `Except` results.
-/

namespace Polkascan

/-- Python strings, modelled as lists of characters. -/
abbrev Str := List Char

/-- A JSON-ish value as stored in the decoded event `attributes` column:
either a string, a number, or null. -/
inductive JValue where
  | vstr : Str → JValue
  | vnum : Int → JValue
  | vnull : JValue
deriving DecidableEq, Repr

/-- One entry of an event `attributes` sequence: a pair of a type tag and a
value (the Python dict with keys `type` and `value`). -/
structure Attrib where
  atype : Str
  value : JValue
deriving DecidableEq, Repr

/-- A decoded chain event record (the columns of `data_event` that the
resource layer reads). -/
structure EventRec where
  block_id : Nat
  event_idx : Nat
  extrinsic_idx : Nat
  module_id : Str
  event_id : Str
  attributes : List Attrib
deriving DecidableEq, Repr

/-- A block record; only the fields read by the resources modelled here. -/
structure BlockRec where
  id : Nat
  datetime : Nat
deriving DecidableEq, Repr

/-- `s.rstrip` character set used throughout the sources: space, tab,
carriage return, newline and NUL. -/
def isPadChar (c : Char) : Bool :=
  c = ' ' || c = '\t' || c = '\r' || c = '\n' || c = Char.ofNat 0

/-- Python `s.rstrip(" \t\r\n\0")`: drop trailing padding characters. -/
def rstripPad (s : Str) : Str :=
  (s.reverse.dropWhile isPadChar).reverse

/-- Value of one hexadecimal digit, `none` on a non-hex character
(`bytearray.fromhex` raises `ValueError` there). -/
def hexDigitVal (c : Char) : Option Nat :=
  if '0' ≤ c ∧ c ≤ '9' then some (c.toNat - '0'.toNat)
  else if 'a' ≤ c ∧ c ≤ 'f' then some (c.toNat - 'a'.toNat + 10)
  else if 'A' ≤ c ∧ c ≤ 'F' then some (c.toNat - 'A'.toNat + 10)
  else none

/-- Python `bytearray.fromhex(s).decode()`: consume hex-digit pairs into
bytes. Bytes are mapped to characters directly, which agrees with UTF-8
decoding on the ASCII payloads used for identifiers in this system. An odd
number of digits or a non-hex digit fails (`ValueError`). -/
def hexPairs : Str → Option Str
  | [] => some []
  | [_] => none
  | a :: b :: rest => do
      let hi ← hexDigitVal a
      let lo ← hexDigitVal b
      let tail ← hexPairs rest
      pure (Char.ofNat (16 * hi + lo) :: tail)

/-- Python `s.replace("0x", "")`: remove every (non-overlapping, leftmost
first) occurrence of the two-character substring `0x`. -/
def replace0x : Str → Str
  | '0' :: 'x' :: rest => replace0x rest
  | c :: rest => c :: replace0x rest
  | [] => []

/-- The identifier decoding step used on `Did`-typed attribute values:
`bytearray.fromhex(v.replace("0x", "")).decode().rstrip(" \t\r\n\0")`. -/
def didDecode (v : Str) : Option Str :=
  (hexPairs (replace0x v)).map rstripPad

/-- Reading the `value` of an attribute as a Python string; a non-string
value would make the subsequent `.replace` call raise `AttributeError`. -/
def JValue.asStr : JValue → Option Str
  | .vstr s => some s
  | _ => none

/-- The DID privacy-masking transform used at `polkascan.py` lines 365-368,
461-466, 661, 671, 778-779, 927, 943, 1011-1012:
`s[:STR_MASK_LEN].ljust(STR_DID_LEN, "*")` — keep the first `maskLen`
characters and right-pad with the mask character to width `didLen`. -/
def maskStr (maskLen didLen : Nat) (s : Str) : Str :=
  s.take maskLen ++ List.replicate (didLen - (s.take maskLen).length) '*'

/-- Modelled from the spec: `app/settings.py` is not among the provided
sources. Per spec sections 3 and 8, masking keeps a configured prefix (the
example output keeps the four characters of the scheme prefix) of the
identifier. -/
def STR_MASK_LEN : Nat := 4

/-- Modelled from the spec: `app/settings.py` is not among the provided
sources. Per spec section 3 a DID is a fixed-width (at most 32 byte)
identifier and masking right-pads to the configured display width. -/
def STR_DID_LEN : Nat := 32

/-- Python `"{}-{}".format(a, b)` on two integers, as used for the
serialized `id` and `event_idx` fields. -/
def fmtDash (a b : Nat) : Str :=
  (toString a).toList ++ '-' :: (toString b).toList

/-- The `sender` / `destination` descriptor objects produced by the
transfer serializers: an account descriptor (with hex id and address), the
claim descriptor (with its `eth_address`), the deposit and staking-reward
descriptors, or the empty descriptor. -/
inductive PartyData where
  | account : Str → Str → PartyData
  | claimed : JValue → PartyData
  | deposit : PartyData
  | reward : PartyData
  | emptyParty : PartyData
deriving DecidableEq, Repr

/-- Accessor for the `address` field of an account descriptor. -/
def PartyData.address : PartyData → Option Str
  | .account _ a => some a
  | _ => none

/-- The serialized balance-transfer list item
(`BalanceTransferListResource.serialize_item` lines 979-991 and
`BalanceTransferHistoryListResource.serialize_item` lines 707-719, which
produce the identical shape). -/
structure TransferOut where
  out_id : Str
  block_id : Nat
  event_id : Str
  event_idx : Str
  sender : PartyData
  destination : PartyData
  value : JValue
  fee : JValue
deriving DecidableEq, Repr

/-- The account-descriptor construction of the transfer list serializers:
decode the hex identifier of a `Did` attribute and emit
`id = value.replace("0x", "")` plus the unconditionally masked address
(`polkascan.py` lines 921-930, 937-946, 655-664, 665-674). -/
def transferPartyOf (maskLen didLen : Nat) (a : Attrib) : Option PartyData := do
  let v ← a.value.asStr
  let s ← didDecode v
  pure (PartyData.account (replace0x v) (maskStr maskLen didLen s))

/-- `BalanceTransferListResource.serialize_item` (`polkascan.py` lines
912-991) and the identical `BalanceTransferHistoryListResource.serialize_item`
(lines 652-719): dispatch on `event_id`, extract sender / destination /
value / fee by kind-specific attribute positions. A missing attribute
index or a non-string `Did` value would raise in Python and yields `none`
here. -/
def balanceTransferListSerializeItem (maskLen didLen : Nat) (item : EventRec) :
    Option TransferOut :=
  if item.event_id = "Transfer".toList then do
    let a0 ← item.attributes.get? 0
    let senderData ← transferPartyOf maskLen didLen a0
    let a1 ← item.attributes.get? 1
    let destinationData ← transferPartyOf maskLen didLen a1
    let fee ← if item.attributes.length = 4 then
        (item.attributes.get? 3).map (·.value)
      else pure (JValue.vnum 0)
    let a2 ← item.attributes.get? 2
    pure ⟨fmtDash item.block_id item.extrinsic_idx, item.block_id, item.event_id,
      fmtDash item.block_id item.extrinsic_idx, senderData, destinationData,
      a2.value, fee⟩
  else if item.event_id = "Claimed".toList then do
    let a1 ← item.attributes.get? 1
    let a2 ← item.attributes.get? 2
    pure ⟨fmtDash item.block_id item.extrinsic_idx, item.block_id, item.event_id,
      fmtDash item.block_id item.extrinsic_idx, PartyData.claimed a1.value,
      PartyData.emptyParty, a2.value, JValue.vnum 0⟩
  else if item.event_id = "Deposit".toList then do
    let a1 ← item.attributes.get? 1
    pure ⟨fmtDash item.block_id item.extrinsic_idx, item.block_id, item.event_id,
      fmtDash item.block_id item.extrinsic_idx, PartyData.deposit,
      PartyData.emptyParty, a1.value, JValue.vnum 0⟩
  else if item.event_id = "Reward".toList then do
    let a1 ← item.attributes.get? 1
    pure ⟨fmtDash item.block_id item.extrinsic_idx, item.block_id, item.event_id,
      fmtDash item.block_id item.extrinsic_idx, PartyData.reward,
      PartyData.emptyParty, a1.value, JValue.vnum 0⟩
  else
    pure ⟨fmtDash item.block_id item.extrinsic_idx, item.block_id, item.event_id,
      fmtDash item.block_id item.extrinsic_idx, PartyData.emptyParty,
      PartyData.emptyParty, JValue.vnull, JValue.vnum 0⟩

/-- The truthiness-plus-membership test
`auth_user and auth_user in parties` that decides revealing in
`getFormattedTransferEvent` (line 365) and
`BalanceTransferDetailResource.serialize_item` (line 1009); the Python
mask condition is its negation. A missing (`False`) or empty-string
authenticated DID is falsy. -/
def authMember (auth : Option Str) (parties : List Str) : Bool :=
  match auth with
  | none => false
  | some a => decide (a ≠ []) && decide (a ∈ parties)

/-- The attribute-scanning loop of `getFormattedTransferEvent` (lines
351-361): walk the attribute list, keeping the sender for a `Did` value
whose first occurrence in the whole list is at position 0 (Python
`event_attribs.index(event)`), the receiver for first-occurrence position
1, and the last `Balance` value as the amount. State is
(sender, receiver, amount), initially two empty strings and the empty
string amount. -/
def gfteFold (full : List Attrib) : List Attrib → Str × Str × JValue →
    Option (Str × Str × JValue)
  | [], st => some st
  | ev :: rest, (s, r, am) =>
    if ev.atype = "Did".toList ∧ full.indexOf ev = 0 then
      match ev.value.asStr.bind didDecode with
      | none => none
      | some d => gfteFold full rest (d, r, am)
    else if ev.atype = "Did".toList ∧ full.indexOf ev = 1 then
      match ev.value.asStr.bind didDecode with
      | none => none
      | some d => gfteFold full rest (s, d, am)
    else if ev.atype = "Balance".toList then
      gfteFold full rest (s, r, ev.value)
    else
      gfteFold full rest (s, r, am)

/-- The pre-masking result of `getFormattedTransferEvent`: decoded sender,
decoded receiver and amount as computed by the scanning loop. -/
def gfteRaw (attribs : List Attrib) : Option (Str × Str × JValue) :=
  gfteFold attribs attribs ([], [], JValue.vstr [])

/-- The result dict of `getFormattedTransferEvent`. -/
structure FormattedTransfer where
  sender : Str
  receiver : Str
  amount : JValue
  memo : JValue
deriving DecidableEq, Repr

/-- The memo assignment of `getFormattedTransferEvent` (lines 362-364):
the memo value when the memo parameter is passed and truthy, the empty
string otherwise. -/
def memoVal (memoParam : Option JValue) : JValue :=
  match memoParam with
  | some v => v
  | none => JValue.vstr []

/-- `getFormattedTransferEvent` (`polkascan.py` lines 340-374): scan the
attributes, then mask both sender and receiver unless the caller is
authenticated as one of them (`if not auth_user or auth_user not in
[sender, receiver]`). `memoParam` models the `value` entry of the optional
memo parameter dict. -/
def getFormattedTransferEvent (maskLen didLen : Nat) (attribs : List Attrib)
    (auth : Option Str) (memoParam : Option JValue) : Option FormattedTransfer :=
  match gfteRaw attribs with
  | none => none
  | some (s, r, am) =>
    let memo : JValue := memoVal memoParam
    if authMember auth [s, r] then some ⟨s, r, am, memo⟩
    else some ⟨maskStr maskLen didLen s, maskStr maskLen didLen r, am, memo⟩

/-- The participant decoding shared by
`BalanceTransferDetailResource.serialize_item` (lines 1007-1008) and
`BalanceTransferHistoryDetailResource.on_get` (lines 773-774): decode the
first two attribute values as DIDs. -/
def decodeParticipants (item : EventRec) : Option (Str × Str) := do
  let a0 ← item.attributes.get? 0
  let v0 ← a0.value.asStr
  let s0 ← didDecode v0
  let a1 ← item.attributes.get? 1
  let v1 ← a1.value.asStr
  let s1 ← didDecode v1
  pure (s0, s1)

/-- The serialized balance-transfer detail item
(`BalanceTransferDetailResource.serialize_item` lines 1046-1057). -/
structure BTDetailOut where
  out_id : Str
  block_id : Nat
  event_idx : Str
  sender : PartyData
  destination : PartyData
  value : JValue
  fee : JValue
deriving DecidableEq, Repr

/-- `BalanceTransferDetailResource.serialize_item` (`polkascan.py` lines
999-1057): decode both participants, mask them unless the caller is
authenticated as one of the two, then emit the detail shape with the
3-versus-4-attribute fee rule. -/
def balanceTransferDetailSerializeItem (maskLen didLen : Nat) (item : EventRec)
    (auth : Option Str) : Option BTDetailOut := do
  let (s0, r0) ← decodeParticipants item
  let (s, r) := if authMember auth [s0, r0] then (s0, r0)
    else (maskStr maskLen didLen s0, maskStr maskLen didLen r0)
  let a0 ← item.attributes.get? 0
  let v0 ← a0.value.asStr
  let a1 ← item.attributes.get? 1
  let v1 ← a1.value.asStr
  let fee ← if item.attributes.length = 4 then
      (item.attributes.get? 3).map (·.value)
    else pure (JValue.vnum 0)
  let a2 ← item.attributes.get? 2
  pure ⟨fmtDash item.block_id item.extrinsic_idx, item.block_id,
    fmtDash item.block_id item.extrinsic_idx,
    PartyData.account (replace0x v0) s, PartyData.account (replace0x v1) r,
    a2.value, fee⟩

/-- The reveal test of `BalanceTransferHistoryDetailResource.on_get` (line
776): the record is revealed only when the caller is authenticated
(truthy) and the authenticated DID equals the `did` path parameter
(`if not auth_user or auth_user != did` masks). -/
def authEqPath (auth : Option Str) (d : Str) : Bool :=
  match auth with
  | none => false
  | some a => decide (a ≠ []) && decide (a = d)

/-- One serialized item of the per-DID transfer-history detail endpoint
(`BalanceTransferHistoryDetailResource.on_get` lines 808-820). -/
structure HistoryItemOut where
  out_id : Str
  block_id : Nat
  datetime : Nat
  event_idx : Str
  sender : PartyData
  destination : PartyData
  value : JValue
  fee : JValue
deriving DecidableEq, Repr

/-- The per-event body of the history detail loop (`polkascan.py` lines
772-820): decode both participants, mask them unless the authenticated
DID equals the `did` path parameter, look up the block for the datetime,
and emit the item with the 3-versus-4-attribute fee rule. -/
def historySerializeEvent (maskLen didLen : Nat) (auth : Option Str) (d : Str)
    (blocks : List BlockRec) (e : EventRec) : Option HistoryItemOut := do
  let (s0, r0) ← decodeParticipants e
  let (s, r) := if authEqPath auth d then (s0, r0)
    else (maskStr maskLen didLen s0, maskStr maskLen didLen r0)
  let a0 ← e.attributes.get? 0
  let v0 ← a0.value.asStr
  let a1 ← e.attributes.get? 1
  let v1 ← a1.value.asStr
  let fee ← if e.attributes.length = 4 then
      (e.attributes.get? 3).map (·.value)
    else pure (JValue.vnum 0)
  let blk ← blocks.find? (fun b => b.id = e.block_id)
  let a2 ← e.attributes.get? 2
  pure ⟨fmtDash e.block_id e.extrinsic_idx, e.block_id, blk.datetime,
    fmtDash e.block_id e.extrinsic_idx,
    PartyData.account (replace0x v0) s, PartyData.account (replace0x v1) r,
    a2.value, fee⟩

/-- The `data` claim carried by a validated token: a dict from which the
resource layer reads the optional `did` entry (`polkascan.py` line 732). -/
structure UserData where
  did : Option Str
deriving DecidableEq, Repr

/-- The decoded JWT payload: the optional `iss` claim and the optional
`data` claim. -/
structure TokenPayload where
  iss : Option Str
  data : Option UserData
deriving DecidableEq, Repr

/-- Modelled from the spec: the JWT transport library is an out-of-scope
collaborator whose success / failure contract alone is used (spec sections
1 and 6). A well-formed HS256 bearer token is characterized by the single
key its signature verifies under, its expiry state and its payload. -/
structure Token where
  key : Str
  expired : Bool
  payload : TokenPayload
deriving DecidableEq, Repr

/-- Modelled from the spec: outcome of one `jwt.decode(token, key)` call
per the library contract — signature verification against the supplied key
first (`InvalidSignatureError` on mismatch), then the expiry check
(`ExpiredSignatureError`), then the decoded payload. -/
inductive JwtOutcome where
  | ok : TokenPayload → JwtOutcome
  | invalidSignature : JwtOutcome
  | expired : JwtOutcome
deriving DecidableEq, Repr

/-- Modelled from the spec: one `jwt.decode` call. -/
def jwtDecode (tok : Token) (key : Str) : JwtOutcome :=
  if tok.key ≠ key then .invalidSignature
  else if tok.expired then .expired
  else .ok tok.payload

/-- Result of the key-trying loop of `validateToken` (`jwt_validator.py`
lines 15-21): either no key verified the signature (`token_data` stays
`False`), or the first verifying key produced a payload and broke the
loop, or an `ExpiredSignatureError` escaped the inner handler (which
catches only `InvalidSignatureError`). -/
inductive LoopRes where
  | noMatch : LoopRes
  | gotPayload : TokenPayload → LoopRes
  | raisedExpired : LoopRes
deriving DecidableEq, Repr

/-- The key loop of `validateToken`. -/
def decodeLoop (tok : Token) : List Str → LoopRes
  | [] => .noMatch
  | k :: ks =>
    match jwtDecode tok k with
    | .invalidSignature => decodeLoop tok ks
    | .expired => .raisedExpired
    | .ok p => .gotPayload p

/-- Result of `validateToken`: the anonymous result (`False`), an
authenticated `data` payload, or an exception escaping the function (a
hard failure the surrounding request handler does not catch). -/
inductive ValidateResult where
  | anon : ValidateResult
  | auth : UserData → ValidateResult
  | raised : ValidateResult
deriving DecidableEq, Repr

/-- `validateToken` (`app/utils/jwt_validator.py` lines 5-30): `False` for
a missing token or empty key configuration; try each configured key until
one verifies the signature; an `ExpiredSignatureError` is caught by the
outer handler and yields `False`; with a verified payload, return
`token_data["data"]` when the issuer is trusted, else `False`. Reading the
`data` key of a payload that lacks it raises `KeyError`, which no handler
catches. -/
def validateToken (keys issuers : List Str) (token : Option Token) :
    ValidateResult :=
  match token with
  | none => .anon
  | some tok =>
    if keys = [] then .anon
    else
      match decodeLoop tok keys with
      | .noMatch => .anon
      | .raisedExpired => .anon
      | .gotPayload p =>
        match p.iss with
        | none => .anon
        | some i =>
          if i ∈ issuers then
            match p.data with
            | some d => .auth d
            | none => .raised
          else .anon

/-- Python `"{:02x}".format(n)`: lowercase hexadecimal, at least two
digits. -/
def hex02 (n : Nat) : Str :=
  let ds := Nat.toDigits 16 n
  if ds.length < 2 then '0' :: ds else ds

/-- Hex-encoding of a DID string, one `"{:02x}".format(ord(c))` per
character (`polkascan.py` lines 643, 743). -/
def hexEncode (s : Str) : Str :=
  (s.map (fun c => hex02 c.toNat)).flatten

/-- The `did` path parameter to stored-account-id conversion of the
history endpoints (lines 636-645, 736-745): a value with a `0x` prefix is
used raw; otherwise the text is hex-encoded, left-justified with `0`
characters to width 64, prefixed with `0x` and truncated to 66
characters. -/
def didToAccountId (d : Str) : Str :=
  if d.take 2 = "0x".toList then d
  else (("0x".toList ++ (hexEncode d ++
    List.replicate (64 - (hexEncode d).length) '0'))).take 66

/-- Insertion step of the model of an SQL `ORDER BY key DESC` clause. -/
def insertDescBy {α : Type} (key : α → Nat) (e : α) : List α → List α
  | [] => [e]
  | x :: xs => if key x ≤ key e then e :: x :: xs else x :: insertDescBy key e xs

/-- The model of an SQL `ORDER BY key DESC` clause: sort descending by a
numeric key (insertion sort; ties keep no guaranteed order in SQL, so any
deterministic choice is a faithful model). -/
def sortDescBy {α : Type} (key : α → Nat) : List α → List α
  | [] => []
  | x :: xs => insertDescBy key x (sortDescBy key xs)

/-- The raw-SQL query of `BalanceTransferHistoryDetailResource.on_get`
(line 752): `balances` / `Transfer` events one of whose attribute values
equals the account id (`JSON_CONTAINS` over the value array), ordered by
`block_id` descending. -/
def historyQuery (events : List EventRec) (accountId : Str) : List EventRec :=
  sortDescBy (fun e => e.block_id)
    (events.filter (fun e =>
      decide (e.module_id = "balances".toList) &&
      decide (e.event_id = "Transfer".toList) &&
      e.attributes.any (fun a => a.value = JValue.vstr accountId)))

/-- The endpoint response: HTTP status, serialized transfer list and
optional error string. -/
structure HistoryResponse where
  status : Nat
  data : List HistoryItemOut
  error : Option Str
deriving DecidableEq, Repr

/-- The parameter-required error body (line 833). -/
def requiredDidError : Str := "ParamterException: Required DID".toList

/-- `BalanceTransferHistoryDetailResource.on_get` (`polkascan.py` lines
725-834): validate the bearer token (an escaping exception makes the whole
request fail, modelled as `none`), take the authenticated DID from the
`did` entry of the token data, answer 400 when the `did` path parameter is
absent (falsy), otherwise convert it to the stored account id, run the
raw query and serialize every matching event. -/
def historyDetailOnGet (maskLen didLen : Nat) (keys issuers : List Str)
    (token : Option Token) (events : List EventRec) (blocks : List BlockRec)
    (did : Option Str) : Option HistoryResponse :=
  let tv := validateToken keys issuers token
  if tv = .raised then none
  else
    let auth : Option Str := match tv with
      | .auth u => u.did
      | _ => none
    match did with
    | none => some ⟨400, [], some requiredDidError⟩
    | some d =>
      if d = [] then some ⟨400, [], some requiredDidError⟩
      else do
        let items ← (historyQuery events (didToAccountId d)).mapM
          (historySerializeEvent maskLen didLen auth d blocks)
        pure ⟨200, items, none⟩

/-- A secondary search-index row (`data_account_search_index`): index
category, account (nullable column), primary-entity key and the monotonic
sort value. -/
structure SearchIndexRec where
  index_type_id : Nat
  account_id : Option Str
  block_id : Nat
  event_idx : Nat
  sorting_value : Nat
deriving DecidableEq, Repr

/-- The primary-entity key pair of an event. -/
def eventKey (e : EventRec) : Nat × Nat := (e.block_id, e.event_idx)

/-- The search-index subquery of `EventsListResource.apply_filters`
(`polkascan.py` lines 401-408): rows whose category is in the requested
set and whose account equals the decoded address, ordered by
`sorting_value` descending, projected to `(block_id, event_idx)` keys. -/
def searchIndexExpand (sidx : List SearchIndexRec) (cats : List Nat)
    (acct : Option Str) : List (Nat × Nat) :=
  (sortDescBy (fun s => s.sorting_value)
    (sidx.filter (fun s =>
      decide (s.index_type_id ∈ cats) && decide (s.account_id = acct)))).map
    (fun s => (s.block_id, s.event_idx))

/-- The base query of `EventsListResource.get_query` (lines 422-425):
all events ordered by `block_id` descending. -/
def eventsBaseQuery (events : List EventRec) : List EventRec :=
  sortDescBy (fun e => e.block_id) events

/-- The search-index branch of `EventsListResource.apply_filters` (lines
396-408): the base ordered query restricted — by an SQL `IN` predicate on
the key tuple, which keeps the base ordering — to the key set produced by
the search-index subquery. -/
def eventsListSearchIndexQuery (events : List EventRec)
    (sidx : List SearchIndexRec) (cats : List Nat) (acct : Option Str) :
    List EventRec :=
  (eventsBaseQuery events).filter
    (fun e => decide (eventKey e ∈ searchIndexExpand sidx cats acct))

/-- `EventsListResource.apply_filters` (`polkascan.py` lines 379-420):
decode the optional hex address filter (a malformed value raises
`ValueError`, modelled as `none`), then either the search-index branch or
the field-filter branch (module, event id, and the
`ExtrinsicSuccess` / `ExtrinsicFailed` exclusion). -/
def eventsListApplyFilters (events : List EventRec) (sidx : List SearchIndexRec)
    (filterAddress : Option Str) (filterSearchIndex : Option (List Nat))
    (filterModule : Option Str) (filterEventId : Option Str) :
    Option (List EventRec) := do
  let acct : Option Str ← match filterAddress with
    | some a => (hexPairs (replace0x a)).map some
    | none => pure none
  match filterSearchIndex with
  | some cats => pure (eventsListSearchIndexQuery events sidx cats acct)
  | none =>
    let q1 : List EventRec := match filterModule with
      | some m => (eventsBaseQuery events).filter (fun e => decide (e.module_id = m))
      | none => eventsBaseQuery events
    match filterEventId with
    | some eid => pure (q1.filter (fun e => decide (e.event_id = eid)))
    | none => pure (q1.filter (fun e =>
        decide (e.event_id ∉ ["ExtrinsicSuccess".toList, "ExtrinsicFailed".toList])))

/-- An extrinsic record; only the fields `ExtrinsicDetailResource.get_item`
reads. -/
structure ExtrinsicRec where
  block_id : Nat
  extrinsic_idx : Nat
  extrinsic_hash : Str
deriving DecidableEq, Repr

/-- Python `s.split("-")`: split on every dash, keeping empty segments. -/
def splitDash : Str → List Str
  | [] => [[]]
  | '-' :: rest => [] :: splitDash rest
  | c :: rest =>
    match splitDash rest with
    | [] => [[c]]
    | h :: t => (c :: h) :: t

/-- Coercion of a key segment string to an integer by the database layer;
a non-numeric segment finds no row. -/
def natOfStr : Str → Option Nat
  | [] => none
  | s => s.foldl (fun acc c =>
      acc.bind (fun a =>
        if '0' ≤ c ∧ c ≤ '9' then some (a * 10 + (c.toNat - '0'.toNat))
        else none)) (some 0)

/-- The error raised by the SQLAlchemy `Query.get` call when the number of
supplied values does not match the composite primary key
(`InvalidRequestError`). -/
inductive GetError where
  | wrongKeyCount : GetError
deriving DecidableEq, Repr

/-- SQLAlchemy `Query.get(parts)` against a two-column composite primary
key: raises unless exactly two values are supplied, otherwise looks up the
row. -/
def compositeGet2 {α : Type} (find : Nat → Nat → Option α) (parts : List Str) :
    Except GetError (Option α) :=
  match parts with
  | [p1, p2] => .ok (match natOfStr p1, natOfStr p2 with
      | some n1, some n2 => find n1 n2
      | _, _ => none)
  | _ => .error GetError.wrongKeyCount

/-- Primary-key lookup of an extrinsic by `(block_id, extrinsic_idx)`. -/
def findExtrinsicByKey (exts : List ExtrinsicRec) (b i : Nat) :
    Option ExtrinsicRec :=
  exts.find? (fun e => decide (e.block_id = b) && decide (e.extrinsic_idx = i))

/-- `ExtrinsicDetailResource.get_item` (`polkascan.py` lines 228-239): a
`0x`-prefixed id resolves by hash; otherwise an id whose dash-split does
not have exactly two segments returns `None` (`NotFound`), and a two-
segment id resolves through the composite primary key. -/
def extrinsicDetailGetItem (exts : List ExtrinsicRec) (item_id : Str) :
    Except GetError (Option ExtrinsicRec) :=
  if item_id.take 2 = "0x".toList then
    .ok (exts.find? (fun e => decide (e.extrinsic_hash = item_id.drop 2)))
  else if (splitDash item_id).length ≠ 2 then
    .ok none
  else
    compositeGet2 (findExtrinsicByKey exts) (splitDash item_id)

/-- Primary-key lookup of an event by `(block_id, event_idx)`. -/
def findEventByKey (events : List EventRec) (b i : Nat) : Option EventRec :=
  events.find? (fun e => decide (e.block_id = b) && decide (e.event_idx = i))

/-- `BalanceTransferDetailResource.get_item` (`polkascan.py` lines
996-997): `Event.query(...).get(item_id.split("-"))` with no guard on the
number of segments. -/
def balanceTransferDetailGetItem (events : List EventRec) (item_id : Str) :
    Except GetError (Option EventRec) :=
  compositeGet2 (findEventByKey events) (splitDash item_id)

/-- The `data_stats` row read by the statistics resources. -/
structure StatsRec where
  sid : Str
  token_name : Str
  symbol : Str
  site : Str
  decimals : Int
  current_circulation : Int
  total_supply : Int
deriving DecidableEq, Repr

/-- A scalar attribute value of a rendered response. -/
inductive AVal where
  | avs : Str → AVal
  | avn : Int → AVal
deriving DecidableEq, Repr

/-- The `data` object of a JSONAPI response: type, id and the ordered
attribute dictionary. -/
structure JsonApiData where
  rtype : Str
  rid : Str
  attributes : List (Str × AVal)
deriving DecidableEq, Repr

/-- A cached / rendered response body: either a JSONAPI object envelope or
a bare value (`MetamuiStatisticsDetailResource` assigns plain scalars and
strings to `response`). -/
inductive Media where
  | obj : JsonApiData → Media
  | raw : AVal → Media
deriving DecidableEq, Repr

/-- Attribute keys of a media body, `none` when the body is not a JSONAPI
attribute object. -/
def mediaAttribKeys : Media → Option (List Str)
  | .obj d => some (d.attributes.map Prod.fst)
  | .raw _ => none

/-- One entry of the dogpile cache region: key, stored value and storage
time. -/
structure CacheEntry where
  key : Str
  value : Media
  storedAt : Nat
deriving DecidableEq, Repr

/-- `cache_region.get(key, expiration_time)`: the stored value if present
and not older than the expiration time, `NO_VALUE` (`none`) otherwise. -/
def cacheGet (region : List CacheEntry) (k : Str) (ttl now : Nat) :
    Option Media :=
  (region.find? (fun e => decide (e.key = k))).bind
    (fun e => if now ≤ e.storedAt + ttl then some e.value else none)

/-- `cache_region.set(key, value)`: store the value now; the newest entry
for a key shadows older ones. -/
def cacheSet (region : List CacheEntry) (k : Str) (v : Media) (now : Nat) :
    List CacheEntry :=
  ⟨k, v, now⟩ :: region

/-- The cache key `"{}-{}".format(req.method, req.url)`. -/
def cacheKey (method url : Str) : Str := method ++ '-' :: url

/-- An HTTP response as far as the statistics handlers shape one: status,
the `X-Cache` header and the media body. -/
structure HttpResponse where
  status : Nat
  xCache : Option Str
  media : Media
deriving DecidableEq, Repr

/-- The caching template shared verbatim by `StatsResource.on_get`,
`NetworkStatisticsResource.on_get` and
`MetamuiStatisticsDetailResource.on_get` (`polkascan.py` lines 491-541,
547-593, 599-622): on a cache miss compute the body from the store, cache
it and set `X-Cache: MISS`; on a hit return the cached body unchanged and
set `X-Cache: HIT`. -/
def cachedOnGet (ttl : Nat) (computeMedia : Media) (region : List CacheEntry)
    (method url : Str) (now : Nat) : HttpResponse × List CacheEntry :=
  match cacheGet region (cacheKey method url) ttl now with
  | some v => (⟨200, some "HIT".toList, v⟩, region)
  | none => (⟨200, some "MISS".toList, computeMedia⟩,
      cacheSet region (cacheKey method url) computeMedia now)

/-- The not-available sentinel value. -/
def notAvailable : AVal := AVal.avs "N/A".toList

/-- The attribute keys of the `StatsResource` body. -/
def statsKeys : List Str :=
  ["currency_id".toList, "token_name".toList, "official_site".toList,
   "currency_decimals".toList, "current_circulation".toList,
   "total_supply".toList]

/-- The store-computed body of `StatsResource.on_get` (lines 504-535):
populated attributes when the stats row exists, the same six keys each set
to `N/A` otherwise. -/
def statsMediaOf (stats : Str → Option StatsRec) (cid : Str) : Media :=
  match stats cid with
  | some st => .obj ⟨"currency_stats".toList, cid,
      [("currency_id".toList, .avs st.sid),
       ("token_name".toList, .avs st.token_name),
       ("official_site".toList, .avs st.site),
       ("currency_decimals".toList, .avn st.decimals),
       ("current_circulation".toList, .avn st.current_circulation),
       ("total_supply".toList, .avn st.total_supply)]⟩
  | none => .obj ⟨"currency_stats".toList, cid, statsKeys.map (fun k => (k, notAvailable))⟩

/-- `StatsResource.on_get` (lines 491-541), expiration time 6 seconds. -/
def statsOnGet (stats : Str → Option StatsRec) (region : List CacheEntry)
    (method url : Str) (now : Nat) (cid : Str) :
    HttpResponse × List CacheEntry :=
  cachedOnGet 6 (statsMediaOf stats cid) region method url now

/-- The attribute keys of the `NetworkStatisticsResource` body. -/
def networkStatsKeys : List Str :=
  ["currency_id".toList, "currency_name".toList, "currency_symbol".toList,
   "official_site".toList, "currency_decimals".toList,
   "current_circulation".toList, "total_supply".toList]

/-- The store-computed body of `NetworkStatisticsResource.on_get` (lines
555-587). -/
def networkStatsMediaOf (stats : Str → Option StatsRec) (cid : Str) : Media :=
  match stats cid with
  | some st => .obj ⟨"currency_stats".toList, cid,
      [("currency_id".toList, .avs st.sid),
       ("currency_name".toList, .avs st.token_name),
       ("currency_symbol".toList, .avs st.symbol),
       ("official_site".toList, .avs st.site),
       ("currency_decimals".toList, .avn st.decimals),
       ("current_circulation".toList, .avn st.current_circulation),
       ("total_supply".toList, .avn st.total_supply)]⟩
  | none => .obj ⟨"currency_stats".toList, cid,
      networkStatsKeys.map (fun k => (k, notAvailable))⟩

/-- `NetworkStatisticsResource.on_get` (lines 543-593), expiration time 60
seconds. -/
def networkStatsOnGet (stats : Str → Option StatsRec) (region : List CacheEntry)
    (method url : Str) (now : Nat) (cid : Str) :
    HttpResponse × List CacheEntry :=
  cachedOnGet 60 (networkStatsMediaOf stats cid) region method url now

/-- The plain-string body returned by
`MetamuiStatisticsDetailResource.on_get` when the field or the stats row
is missing (lines 614-616). -/
def requestedDataNotFound : Media :=
  Media.raw (AVal.avs "Requested data not found".toList)

/-- The store-computed body of `MetamuiStatisticsDetailResource.on_get`
(lines 605-616): a bare field value for the two known field ids when the
`metamui` stats row exists, the bare string `Requested data not found`
otherwise. -/
def metamuiMediaOf (stats : Str → Option StatsRec) (field_id : Option Str) :
    Media :=
  match stats "metamui".toList with
  | some st =>
    if field_id = some "total_supply".toList then .raw (.avn st.total_supply)
    else if field_id = some "current_circulation".toList then
      .raw (.avn st.current_circulation)
    else requestedDataNotFound
  | none => requestedDataNotFound

/-- `MetamuiStatisticsDetailResource.on_get` (lines 595-622), expiration
time 60 seconds. -/
def metamuiStatsOnGet (stats : Str → Option StatsRec) (region : List CacheEntry)
    (method url : Str) (now : Nat) (field_id : Option Str) :
    HttpResponse × List CacheEntry :=
  cachedOnGet 60 (metamuiMediaOf stats field_id) region method url now

/-- Modelled from the spec: the base list-resource layer
(`app/resources/base.py` is not among the provided sources) invokes
`serialize_item(item)` on each record of the resolved page with no
identity argument (the serializer signatures at lines 652 and 912 take
none). The explicit identity input here only makes that absence
stateable. -/
def balanceTransferListRender (maskLen didLen : Nat) (_auth : Option Str)
    (items : List EventRec) : Option (List TransferOut) :=
  items.mapM (balanceTransferListSerializeItem maskLen didLen)

/-- C2 helper: the length of the masked string. -/
theorem maskStr_length (maskLen didLen : Nat) (s : Str) :
    (maskStr maskLen didLen s).length =
      max (min maskLen s.length) didLen := by
  simp [maskStr]
  omega

/-- C2: the masking transform of `polkascan.py` (keep the first
`STR_MASK_LEN` characters, pad with the mask character to width
`STR_DID_LEN`) is idempotent for every string and every configuration of
the two width constants, and whenever the display width is at least the
kept prefix length the output has exactly the display width. -/
theorem c2_mask_idempotent_and_width (maskLen didLen : Nat) (s : Str) :
    maskStr maskLen didLen (maskStr maskLen didLen s) = maskStr maskLen didLen s ∧
    (maskLen ≤ didLen → (maskStr maskLen didLen s).length = didLen) := by
  constructor
  · have htl : (s.take maskLen).length ≤ maskLen := by
      simp [List.length_take]
    unfold maskStr
    rw [List.take_append_eq_append_take, List.take_of_length_le htl,
        List.take_replicate, List.append_assoc, List.append_replicate_replicate]
    congr 2
    simp [List.length_take, List.length_append, List.length_replicate]
    omega
  · intro h
    rw [maskStr_length]
    have : min maskLen s.length ≤ maskLen := Nat.min_le_left _ _
    omega

/-- C3: for an event with `module_id = balances` and `event_id = Transfer`
both transfer serializers return `fee = 0` when the event has exactly 3
attributes and `fee = attributes[3].value` when it has exactly 4, and the
value is taken from `attributes[2]`. -/
theorem c3_transfer_fee_rule (maskLen didLen : Nat) (item : EventRec)
    (outL : TransferOut) (outD : BTDetailOut) (auth : Option Str) :
    (item.module_id = "balances".toList → item.event_id = "Transfer".toList →
      balanceTransferListSerializeItem maskLen didLen item = some outL →
      (item.attributes.length = 3 → outL.fee = JValue.vnum 0) ∧
      (item.attributes.length = 4 →
        ∃ a3, item.attributes.get? 3 = some a3 ∧ outL.fee = a3.value) ∧
      (∃ a2, item.attributes.get? 2 = some a2 ∧ outL.value = a2.value)) ∧
    (balanceTransferDetailSerializeItem maskLen didLen item auth = some outD →
      (item.attributes.length = 3 → outD.fee = JValue.vnum 0) ∧
      (item.attributes.length = 4 →
        ∃ a3, item.attributes.get? 3 = some a3 ∧ outD.fee = a3.value) ∧
      (∃ a2, item.attributes.get? 2 = some a2 ∧ outD.value = a2.value)) := by
  constructor
  · intro _ hid h
    unfold balanceTransferListSerializeItem at h
    rw [if_pos hid] at h
    refine ⟨?_, ?_, ?_⟩
    · intro h3
      have hlen : ¬ item.attributes.length = 4 := by omega
      simp only [if_neg hlen, Option.bind_eq_bind, Option.bind_eq_some,
        Option.pure_def, Option.some.injEq, Option.map_eq_some'] at h
      obtain ⟨a0, ha0, sd, hsd, a1, ha1, dd, hdd, fee, hfee, a2, ha2, hout⟩ := h
      subst hout
      simp [← hfee]
    · intro h4
      simp only [if_pos h4, Option.bind_eq_bind, Option.bind_eq_some,
        Option.pure_def, Option.some.injEq, Option.map_eq_some'] at h
      obtain ⟨a0, ha0, sd, hsd, a1, ha1, dd, hdd, fee, ⟨a3, ha3, hfv⟩, a2, ha2, hout⟩ := h
      subst hout
      exact ⟨a3, ha3, by simp [← hfv]⟩
    · by_cases h4 : item.attributes.length = 4
      · simp only [if_pos h4, Option.bind_eq_bind, Option.bind_eq_some,
          Option.pure_def, Option.some.injEq, Option.map_eq_some'] at h
        obtain ⟨a0, ha0, sd, hsd, a1, ha1, dd, hdd, fee, hfee, a2, ha2, hout⟩ := h
        subst hout
        exact ⟨a2, ha2, rfl⟩
      · simp only [if_neg h4, Option.bind_eq_bind, Option.bind_eq_some,
          Option.pure_def, Option.some.injEq, Option.map_eq_some'] at h
        obtain ⟨a0, ha0, sd, hsd, a1, ha1, dd, hdd, fee, hfee, a2, ha2, hout⟩ := h
        subst hout
        exact ⟨a2, ha2, rfl⟩
  · intro h
    unfold balanceTransferDetailSerializeItem at h
    refine ⟨?_, ?_, ?_⟩
    · intro h3
      have hlen : ¬ item.attributes.length = 4 := by omega
      simp only [if_neg hlen, Option.bind_eq_bind, Option.bind_eq_some,
        Option.pure_def, Option.some.injEq, Option.map_eq_some'] at h
      obtain ⟨⟨s0, r0⟩, hsr, a0, ha0, v0, hv0, a1, ha1, v1, hv1, fee, hfee, a2, ha2, hout⟩ := h
      subst hout
      simp [← hfee]
    · intro h4
      simp only [if_pos h4, Option.bind_eq_bind, Option.bind_eq_some,
        Option.pure_def, Option.some.injEq, Option.map_eq_some'] at h
      obtain ⟨⟨s0, r0⟩, hsr, a0, ha0, v0, hv0, a1, ha1, v1, hv1, fee, ⟨a3, ha3, hfv⟩, a2, ha2, hout⟩ := h
      subst hout
      exact ⟨a3, ha3, by simp [← hfv]⟩
    · by_cases h4 : item.attributes.length = 4
      · simp only [if_pos h4, Option.bind_eq_bind, Option.bind_eq_some,
          Option.pure_def, Option.some.injEq, Option.map_eq_some'] at h
        obtain ⟨⟨s0, r0⟩, hsr, a0, ha0, v0, hv0, a1, ha1, v1, hv1, fee, hfee, a2, ha2, hout⟩ := h
        subst hout
        exact ⟨a2, ha2, rfl⟩
      · simp only [if_neg h4, Option.bind_eq_bind, Option.bind_eq_some,
          Option.pure_def, Option.some.injEq, Option.map_eq_some'] at h
        obtain ⟨⟨s0, r0⟩, hsr, a0, ha0, v0, hv0, a1, ha1, v1, hv1, fee, hfee, a2, ha2, hout⟩ := h
        subst hout
        exact ⟨a2, ha2, rfl⟩

/-- C3 witness: the theorem applied to a concrete three-attribute transfer
event (for the list serializer) and a concrete four-attribute transfer
event (for the detail serializer). -/
theorem c3_transfer_fee_rule_witness :
    (∃ outL, balanceTransferListSerializeItem 4 32
        ⟨3, 0, 1, "balances".toList, "Transfer".toList,
          [⟨"Did".toList, .vstr "0x6469643a61".toList⟩,
           ⟨"Did".toList, .vstr "0x6469643a62".toList⟩,
           ⟨"Balance".toList, .vnum 7⟩]⟩ = some outL ∧
        outL.fee = JValue.vnum 0) ∧
    (∃ outD, balanceTransferDetailSerializeItem 4 32
        ⟨3, 0, 1, "balances".toList, "Transfer".toList,
          [⟨"Did".toList, .vstr "0x6469643a61".toList⟩,
           ⟨"Did".toList, .vstr "0x6469643a62".toList⟩,
           ⟨"Balance".toList, .vnum 7⟩,
           ⟨"Balance".toList, .vnum 1⟩]⟩ none = some outD ∧
        outD.fee = JValue.vnum 1) := by
  constructor
  · obtain ⟨outL, h⟩ : ∃ o, balanceTransferListSerializeItem 4 32
        ⟨3, 0, 1, "balances".toList, "Transfer".toList,
          [⟨"Did".toList, .vstr "0x6469643a61".toList⟩,
           ⟨"Did".toList, .vstr "0x6469643a62".toList⟩,
           ⟨"Balance".toList, .vnum 7⟩]⟩ = some o := ⟨_, rfl⟩
    exact ⟨outL, h, ((c3_transfer_fee_rule 4 32 _ outL
      ⟨[], 0, [], .emptyParty, .emptyParty, .vnull, .vnum 0⟩ none).1
      (by decide) (by decide) h).1 (by decide)⟩
  · obtain ⟨outD, h⟩ : ∃ o, balanceTransferDetailSerializeItem 4 32
        ⟨3, 0, 1, "balances".toList, "Transfer".toList,
          [⟨"Did".toList, .vstr "0x6469643a61".toList⟩,
           ⟨"Did".toList, .vstr "0x6469643a62".toList⟩,
           ⟨"Balance".toList, .vnum 7⟩,
           ⟨"Balance".toList, .vnum 1⟩]⟩ none = some o := ⟨_, rfl⟩
    obtain ⟨a3, ha3, hfee⟩ := ((c3_transfer_fee_rule 4 32 _
      ⟨[], 0, [], [], .emptyParty, .emptyParty, .vnull, .vnum 0⟩ outD none).2 h).2.1
      (by decide)
    refine ⟨outD, h, ?_⟩
    rw [hfee]
    have ha : a3 = ⟨"Balance".toList, .vnum 1⟩ := by
      have := ha3
      simp at this
      exact this.symm
    rw [ha]

/-- C4: an event whose id is none of the four known kinds serializes to
the empty sender and destination, null value and zero fee; and the fee is
zero whenever the event is not a four-attribute transfer. -/
theorem c4_unknown_event_defaults (maskLen didLen : Nat) (item : EventRec)
    (out : TransferOut) :
    (item.event_id ∉ ["Transfer".toList, "Claimed".toList, "Deposit".toList,
        "Reward".toList] →
      balanceTransferListSerializeItem maskLen didLen item = some out →
      out.sender = PartyData.emptyParty ∧ out.destination = PartyData.emptyParty ∧
      out.value = JValue.vnull ∧ out.fee = JValue.vnum 0) ∧
    (balanceTransferListSerializeItem maskLen didLen item = some out →
      ¬(item.event_id = "Transfer".toList ∧ item.attributes.length = 4) →
      out.fee = JValue.vnum 0) := by
  constructor
  · intro hne h
    simp only [List.mem_cons, List.not_mem_nil, or_false, not_or] at hne
    obtain ⟨h1, h2, h3, h4⟩ := hne
    unfold balanceTransferListSerializeItem at h
    rw [if_neg h1, if_neg h2, if_neg h3, if_neg h4] at h
    simp only [Option.pure_def, Option.some.injEq] at h
    subst h
    exact ⟨rfl, rfl, rfl, rfl⟩
  · intro h hnot
    unfold balanceTransferListSerializeItem at h
    split at h
    · rename_i hT
      have hlen : ¬ item.attributes.length = 4 := fun hl => hnot ⟨hT, hl⟩
      simp only [if_neg hlen, Option.bind_eq_bind, Option.bind_eq_some,
        Option.pure_def, Option.some.injEq, Option.map_eq_some'] at h
      obtain ⟨a0, ha0, sd, hsd, a1, ha1, dd, hdd, fee, hfee, a2, ha2, hout⟩ := h
      subst hout
      simp [← hfee]
    · split at h
      · simp only [Option.bind_eq_bind, Option.bind_eq_some, Option.pure_def,
          Option.some.injEq] at h
        obtain ⟨a1, ha1, a2, ha2, hout⟩ := h
        subst hout
        rfl
      · split at h
        · simp only [Option.bind_eq_bind, Option.bind_eq_some, Option.pure_def,
            Option.some.injEq] at h
          obtain ⟨a1, ha1, hout⟩ := h
          subst hout
          rfl
        · split at h
          · simp only [Option.bind_eq_bind, Option.bind_eq_some, Option.pure_def,
              Option.some.injEq] at h
            obtain ⟨a1, ha1, hout⟩ := h
            subst hout
            rfl
          · simp only [Option.pure_def, Option.some.injEq] at h
            subst h
            rfl

/-- C4 witness: the theorem applied to a concrete unknown-kind event. -/
theorem c4_unknown_event_defaults_witness :
    ∃ out, balanceTransferListSerializeItem 4 32
        ⟨9, 2, 5, "system".toList, "NewAccount".toList, []⟩ = some out ∧
      out.sender = PartyData.emptyParty ∧ out.destination = PartyData.emptyParty ∧
      out.value = JValue.vnull ∧ out.fee = JValue.vnum 0 := by
  obtain ⟨out, h⟩ : ∃ o, balanceTransferListSerializeItem 4 32
      ⟨9, 2, 5, "system".toList, "NewAccount".toList, []⟩ = some o := ⟨_, rfl⟩
  exact ⟨out, h, (c4_unknown_event_defaults 4 32 _ out).1 (by decide) h⟩

/-- C10: the balance-transfer list serializers mask unconditionally — the
rendered list is identical for every caller identity, and for a transfer
event the sender and destination addresses are always the masked form of
the decoded DIDs. -/
theorem c10_list_identity_independent (maskLen didLen : Nat)
    (auth1 auth2 : Option Str) (items : List EventRec) (item : EventRec)
    (out : TransferOut) :
    balanceTransferListRender maskLen didLen auth1 items =
      balanceTransferListRender maskLen didLen auth2 items ∧
    (item.event_id = "Transfer".toList →
      balanceTransferListSerializeItem maskLen didLen item = some out →
      ∃ a0 v0 s0 a1 v1 s1,
        item.attributes.get? 0 = some a0 ∧ a0.value.asStr = some v0 ∧
        didDecode v0 = some s0 ∧
        item.attributes.get? 1 = some a1 ∧ a1.value.asStr = some v1 ∧
        didDecode v1 = some s1 ∧
        out.sender = PartyData.account (replace0x v0) (maskStr maskLen didLen s0) ∧
        out.destination = PartyData.account (replace0x v1) (maskStr maskLen didLen s1)) := by
  refine ⟨rfl, ?_⟩
  intro hid h
  unfold balanceTransferListSerializeItem at h
  rw [if_pos hid] at h
  have hmain : ∃ a0 sd a1 dd,
      item.attributes.get? 0 = some a0 ∧ transferPartyOf maskLen didLen a0 = some sd ∧
      item.attributes.get? 1 = some a1 ∧ transferPartyOf maskLen didLen a1 = some dd ∧
      out.sender = sd ∧ out.destination = dd := by
    by_cases h4 : item.attributes.length = 4
    · simp only [if_pos h4, Option.bind_eq_bind, Option.bind_eq_some,
        Option.pure_def, Option.some.injEq, Option.map_eq_some'] at h
      obtain ⟨a0, ha0, sd, hsd, a1, ha1, dd, hdd, fee, hfee, a2, ha2, hout⟩ := h
      exact ⟨a0, sd, a1, dd, ha0, hsd, ha1, hdd, by rw [← hout], by rw [← hout]⟩
    · simp only [if_neg h4, Option.bind_eq_bind, Option.bind_eq_some,
        Option.pure_def, Option.some.injEq, Option.map_eq_some'] at h
      obtain ⟨a0, ha0, sd, hsd, a1, ha1, dd, hdd, fee, hfee, a2, ha2, hout⟩ := h
      exact ⟨a0, sd, a1, dd, ha0, hsd, ha1, hdd, by rw [← hout], by rw [← hout]⟩
  obtain ⟨a0, sd, a1, dd, ha0, hsd, ha1, hdd, hos, hod⟩ := hmain
  unfold transferPartyOf at hsd hdd
  simp only [Option.bind_eq_bind, Option.bind_eq_some, Option.pure_def,
    Option.some.injEq] at hsd hdd
  obtain ⟨v0, hv0, s0, hs0, hsd2⟩ := hsd
  obtain ⟨v1, hv1, s1, hs1, hdd2⟩ := hdd
  exact ⟨a0, v0, s0, a1, v1, s1, ha0, hv0, hs0, ha1, hv1, hs1,
    by rw [hos, ← hsd2], by rw [hod, ← hdd2]⟩

/-- C10 witness: the theorem applied to a concrete transfer event and the
anonymous and an authenticated identity. -/
theorem c10_list_identity_independent_witness :
    (balanceTransferListRender 4 32 none
        [⟨3, 0, 1, "balances".toList, "Transfer".toList,
          [⟨"Did".toList, .vstr "0x6469643a61".toList⟩,
           ⟨"Did".toList, .vstr "0x6469643a62".toList⟩,
           ⟨"Balance".toList, .vnum 7⟩]⟩] =
      balanceTransferListRender 4 32 (some "did:a".toList)
        [⟨3, 0, 1, "balances".toList, "Transfer".toList,
          [⟨"Did".toList, .vstr "0x6469643a61".toList⟩,
           ⟨"Did".toList, .vstr "0x6469643a62".toList⟩,
           ⟨"Balance".toList, .vnum 7⟩]⟩]) ∧
    (∃ out, balanceTransferListSerializeItem 4 32
        ⟨3, 0, 1, "balances".toList, "Transfer".toList,
          [⟨"Did".toList, .vstr "0x6469643a61".toList⟩,
           ⟨"Did".toList, .vstr "0x6469643a62".toList⟩,
           ⟨"Balance".toList, .vnum 7⟩]⟩ = some out ∧
      out.sender.address = some (maskStr 4 32 "did:a".toList)) := by
  constructor
  · exact (c10_list_identity_independent 4 32 none (some "did:a".toList)
      [⟨3, 0, 1, "balances".toList, "Transfer".toList,
        [⟨"Did".toList, .vstr "0x6469643a61".toList⟩,
         ⟨"Did".toList, .vstr "0x6469643a62".toList⟩,
         ⟨"Balance".toList, .vnum 7⟩]⟩]
      ⟨0, 0, 0, [], [], []⟩ ⟨[], 0, [], [], .emptyParty, .emptyParty, .vnull, .vnum 0⟩).1
  · obtain ⟨out, h⟩ : ∃ o, balanceTransferListSerializeItem 4 32
        ⟨3, 0, 1, "balances".toList, "Transfer".toList,
          [⟨"Did".toList, .vstr "0x6469643a61".toList⟩,
           ⟨"Did".toList, .vstr "0x6469643a62".toList⟩,
           ⟨"Balance".toList, .vnum 7⟩]⟩ = some o := ⟨_, rfl⟩
    obtain ⟨a0, v0, s0, a1, v1, s1, ha0, hv0, hs0, ha1, hv1, hs1, hos, hod⟩ :=
      (c10_list_identity_independent 4 32 none none []
        ⟨3, 0, 1, "balances".toList, "Transfer".toList,
          [⟨"Did".toList, .vstr "0x6469643a61".toList⟩,
           ⟨"Did".toList, .vstr "0x6469643a62".toList⟩,
           ⟨"Balance".toList, .vnum 7⟩]⟩ out).2 (by decide) h
    refine ⟨out, h, ?_⟩
    rw [hos]
    have hv : v0 = "0x6469643a61".toList := by
      have h1 : a0 = ⟨"Did".toList, .vstr "0x6469643a61".toList⟩ := by
        have := ha0
        simp at this
        exact this.symm
      rw [h1] at hv0
      simpa [JValue.asStr] using hv0.symm
    have hs : s0 = "did:a".toList := by
      rw [hv] at hs0
      have hdd : didDecode "0x6469643a61".toList = some "did:a".toList := by decide
      rw [hdd] at hs0
      injection hs0 with h2
      exact h2.symm
    rw [PartyData.address, hs]

/-- C1 (amended): on the `getFormattedTransferEvent` and
`BalanceTransferDetailResource.serialize_item` paths the record is
revealed when the authenticated DID is one of the two decoded participants
and fully masked otherwise (all-or-nothing, membership-based); on the
per-DID transfer-history detail endpoint the record is instead revealed
exactly when the authenticated DID is truthy and equals the `did` path
parameter as a string, and fully masked otherwise. -/
theorem c1_masking_policy (maskLen didLen : Nat) (attribs : List Attrib)
    (auth : Option Str) (memo : Option JValue) (s r s0 r0 : Str) (am : JValue)
    (ft : FormattedTransfer) (item e : EventRec) (outD : BTDetailOut)
    (d : Str) (blocks : List BlockRec) (it : HistoryItemOut) :
    (gfteRaw attribs = some (s, r, am) →
      getFormattedTransferEvent maskLen didLen attribs auth memo = some ft →
      (authMember auth [s, r] = true → ft.sender = s ∧ ft.receiver = r) ∧
      (authMember auth [s, r] = false →
        ft.sender = maskStr maskLen didLen s ∧
        ft.receiver = maskStr maskLen didLen r)) ∧
    (decodeParticipants item = some (s0, r0) →
      balanceTransferDetailSerializeItem maskLen didLen item auth = some outD →
      (authMember auth [s0, r0] = true →
        outD.sender.address = some s0 ∧ outD.destination.address = some r0) ∧
      (authMember auth [s0, r0] = false →
        outD.sender.address = some (maskStr maskLen didLen s0) ∧
        outD.destination.address = some (maskStr maskLen didLen r0))) ∧
    (decodeParticipants e = some (s0, r0) →
      historySerializeEvent maskLen didLen auth d blocks e = some it →
      (authEqPath auth d = true →
        it.sender.address = some s0 ∧ it.destination.address = some r0) ∧
      (authEqPath auth d = false →
        it.sender.address = some (maskStr maskLen didLen s0) ∧
        it.destination.address = some (maskStr maskLen didLen r0))) := by
  refine ⟨?_, ?_, ?_⟩
  · intro hraw h
    have heq : getFormattedTransferEvent maskLen didLen attribs auth memo =
        if authMember auth [s, r] then
          some ⟨s, r, am, memoVal memo⟩
        else
          some ⟨maskStr maskLen didLen s, maskStr maskLen didLen r, am,
            memoVal memo⟩ := by
      unfold getFormattedTransferEvent
      rw [hraw]
    rw [heq] at h
    constructor
    · intro hm
      rw [if_pos hm] at h
      cases h
      exact ⟨rfl, rfl⟩
    · intro hm
      rw [if_neg (by simp [hm])] at h
      cases h
      exact ⟨rfl, rfl⟩
  · intro hdp h
    unfold balanceTransferDetailSerializeItem at h
    rw [hdp] at h
    constructor
    · intro hm
      simp only [Option.bind_eq_bind, Option.some_bind, hm, if_true, ite_true] at h
      by_cases h4 : item.attributes.length = 4
      · simp only [if_pos h4, Option.bind_eq_bind, Option.bind_eq_some,
          Option.pure_def, Option.some.injEq, Option.map_eq_some'] at h
        obtain ⟨a0, ha0, v0, hv0, a1, ha1, v1, hv1, fee, hfee, a2, ha2, hout⟩ := h
        subst hout
        exact ⟨rfl, rfl⟩
      · simp only [if_neg h4, Option.bind_eq_bind, Option.bind_eq_some,
          Option.pure_def, Option.some.injEq, Option.map_eq_some'] at h
        obtain ⟨a0, ha0, v0, hv0, a1, ha1, v1, hv1, fee, hfee, a2, ha2, hout⟩ := h
        subst hout
        exact ⟨rfl, rfl⟩
    · intro hm
      simp only [Option.bind_eq_bind, Option.some_bind, hm, if_false, ite_false,
        Bool.false_eq_true] at h
      by_cases h4 : item.attributes.length = 4
      · simp only [if_pos h4, Option.bind_eq_bind, Option.bind_eq_some,
          Option.pure_def, Option.some.injEq, Option.map_eq_some'] at h
        obtain ⟨a0, ha0, v0, hv0, a1, ha1, v1, hv1, fee, hfee, a2, ha2, hout⟩ := h
        subst hout
        exact ⟨rfl, rfl⟩
      · simp only [if_neg h4, Option.bind_eq_bind, Option.bind_eq_some,
          Option.pure_def, Option.some.injEq, Option.map_eq_some'] at h
        obtain ⟨a0, ha0, v0, hv0, a1, ha1, v1, hv1, fee, hfee, a2, ha2, hout⟩ := h
        subst hout
        exact ⟨rfl, rfl⟩
  · intro hdp h
    unfold historySerializeEvent at h
    rw [hdp] at h
    constructor
    · intro hm
      simp only [Option.bind_eq_bind, Option.some_bind, hm, if_true, ite_true] at h
      by_cases h4 : e.attributes.length = 4
      · simp only [if_pos h4, Option.bind_eq_bind, Option.bind_eq_some,
          Option.pure_def, Option.some.injEq, Option.map_eq_some'] at h
        obtain ⟨a0, ha0, v0, hv0, a1, ha1, v1, hv1, fee, hfee, blk, hblk, a2, ha2, hout⟩ := h
        subst hout
        exact ⟨rfl, rfl⟩
      · simp only [if_neg h4, Option.bind_eq_bind, Option.bind_eq_some,
          Option.pure_def, Option.some.injEq, Option.map_eq_some'] at h
        obtain ⟨a0, ha0, v0, hv0, a1, ha1, v1, hv1, fee, hfee, blk, hblk, a2, ha2, hout⟩ := h
        subst hout
        exact ⟨rfl, rfl⟩
    · intro hm
      simp only [Option.bind_eq_bind, Option.some_bind, hm, if_false, ite_false,
        Bool.false_eq_true] at h
      by_cases h4 : e.attributes.length = 4
      · simp only [if_pos h4, Option.bind_eq_bind, Option.bind_eq_some,
          Option.pure_def, Option.some.injEq, Option.map_eq_some'] at h
        obtain ⟨a0, ha0, v0, hv0, a1, ha1, v1, hv1, fee, hfee, blk, hblk, a2, ha2, hout⟩ := h
        subst hout
        exact ⟨rfl, rfl⟩
      · simp only [if_neg h4, Option.bind_eq_bind, Option.bind_eq_some,
          Option.pure_def, Option.some.injEq, Option.map_eq_some'] at h
        obtain ⟨a0, ha0, v0, hv0, a1, ha1, v1, hv1, fee, hfee, blk, hblk, a2, ha2, hout⟩ := h
        subst hout
        exact ⟨rfl, rfl⟩

/-- C1 witness: the amended theorem applied at concrete inputs — a
participant caller sees both DIDs unmasked through
`getFormattedTransferEvent` and the detail serializer, and the history
endpoint reveals for a caller whose DID equals the path parameter. -/
theorem c1_masking_policy_witness :
    (∃ ft, getFormattedTransferEvent 4 32
        [⟨"Did".toList, .vstr "0x6469643a61".toList⟩,
         ⟨"Did".toList, .vstr "0x6469643a62".toList⟩,
         ⟨"Balance".toList, .vnum 7⟩] (some "did:a".toList) none = some ft ∧
      ft.sender = "did:a".toList ∧ ft.receiver = "did:b".toList) ∧
    (∃ it, historySerializeEvent 4 32 (some "did:b".toList) "did:b".toList
        [⟨3, 1111⟩]
        ⟨3, 0, 1, "balances".toList, "Transfer".toList,
          [⟨"Did".toList, .vstr "0x6469643a61".toList⟩,
           ⟨"Did".toList, .vstr "0x6469643a62".toList⟩,
           ⟨"Balance".toList, .vnum 7⟩]⟩ = some it ∧
      it.sender.address = some "did:a".toList ∧
      it.destination.address = some "did:b".toList) := by
  constructor
  · obtain ⟨ft, h⟩ : ∃ o, getFormattedTransferEvent 4 32
        [⟨"Did".toList, .vstr "0x6469643a61".toList⟩,
         ⟨"Did".toList, .vstr "0x6469643a62".toList⟩,
         ⟨"Balance".toList, .vnum 7⟩] (some "did:a".toList) none = some o := ⟨_, rfl⟩
    obtain ⟨hs, hr⟩ := ((c1_masking_policy 4 32
      [⟨"Did".toList, .vstr "0x6469643a61".toList⟩,
       ⟨"Did".toList, .vstr "0x6469643a62".toList⟩,
       ⟨"Balance".toList, .vnum 7⟩] (some "did:a".toList) none
      "did:a".toList "did:b".toList [] [] (.vnum 7) ft
      ⟨0,0,0,[],[],[]⟩ ⟨0,0,0,[],[],[]⟩
      ⟨[],0,[],.emptyParty,.emptyParty,.vnull,.vnum 0⟩ [] []
      ⟨[],0,0,[],.emptyParty,.emptyParty,.vnull,.vnum 0⟩).1
      (by decide) h).1 (by decide)
    exact ⟨ft, h, hs, hr⟩
  · obtain ⟨it, h⟩ : ∃ o, historySerializeEvent 4 32 (some "did:b".toList)
        "did:b".toList [⟨3, 1111⟩]
        ⟨3, 0, 1, "balances".toList, "Transfer".toList,
          [⟨"Did".toList, .vstr "0x6469643a61".toList⟩,
           ⟨"Did".toList, .vstr "0x6469643a62".toList⟩,
           ⟨"Balance".toList, .vnum 7⟩]⟩ = some o := ⟨_, rfl⟩
    obtain ⟨hs, hr⟩ := ((c1_masking_policy 4 32 [] (some "did:b".toList) none
      [] [] "did:a".toList "did:b".toList (.vnull)
      ⟨[],[],.vnull,.vnull⟩ ⟨0,0,0,[],[],[]⟩
      ⟨3, 0, 1, "balances".toList, "Transfer".toList,
        [⟨"Did".toList, .vstr "0x6469643a61".toList⟩,
         ⟨"Did".toList, .vstr "0x6469643a62".toList⟩,
         ⟨"Balance".toList, .vnum 7⟩]⟩
      ⟨[],0,[],.emptyParty,.emptyParty,.vnull,.vnum 0⟩ "did:b".toList
      [⟨3, 1111⟩] it).2.2 (by decide) h).1 (by decide)
    exact ⟨it, h, hs, hr⟩

/-- C1 counterexample: on the history detail endpoint a caller
authenticated as `did:b` — a participant (the receiver) of the matching
transfer record — still receives both DID fields masked, because the
reveal test compares the authenticated DID with the `did` path parameter
(`did:a` here) instead of testing membership in the participant set. -/
theorem c1_counterexample :
    decodeParticipants
      ⟨3, 0, 1, "balances".toList, "Transfer".toList,
        [⟨"Did".toList, .vstr "0x6469643a61000000000000000000000000000000000000000000000000000000".toList⟩,
         ⟨"Did".toList, .vstr "0x6469643a62000000000000000000000000000000000000000000000000000000".toList⟩,
         ⟨"Balance".toList, .vnum 7⟩]⟩ =
      some ("did:a".toList, "did:b".toList) ∧
    validateToken ["k".toList] ["iss1".toList]
      (some ⟨"k".toList, false, ⟨some "iss1".toList, some ⟨some "did:b".toList⟩⟩⟩) =
      ValidateResult.auth ⟨some "did:b".toList⟩ ∧
    historyDetailOnGet 4 32 ["k".toList] ["iss1".toList]
      (some ⟨"k".toList, false, ⟨some "iss1".toList, some ⟨some "did:b".toList⟩⟩⟩)
      [⟨3, 0, 1, "balances".toList, "Transfer".toList,
        [⟨"Did".toList, .vstr "0x6469643a61000000000000000000000000000000000000000000000000000000".toList⟩,
         ⟨"Did".toList, .vstr "0x6469643a62000000000000000000000000000000000000000000000000000000".toList⟩,
         ⟨"Balance".toList, .vnum 7⟩]⟩]
      [⟨3, 1111⟩] (some "did:a".toList) =
      some ⟨200,
        [⟨"3-1".toList, 3, 1111, "3-1".toList,
          .account ("6469643a61000000000000000000000000000000000000000000000000000000".toList)
            (maskStr 4 32 "did:a".toList),
          .account ("6469643a62000000000000000000000000000000000000000000000000000000".toList)
            (maskStr 4 32 "did:b".toList),
          .vnum 7, .vnum 0⟩], none⟩ ∧
    maskStr 4 32 "did:a".toList ≠ "did:a".toList ∧
    maskStr 4 32 "did:b".toList ≠ "did:b".toList := by
  refine ⟨by decide, by decide, ?_, by decide, by decide⟩
  decide


/-- Sort-model helper: membership in an insertion step. -/
theorem mem_insertDescBy {α : Type} (key : α → Nat) (e a : α) (l : List α) :
    a ∈ insertDescBy key e l ↔ a = e ∨ a ∈ l := by
  induction l with
  | nil => simp [insertDescBy]
  | cons x xs ih =>
    unfold insertDescBy
    by_cases hc : key x ≤ key e
    · simp [hc]
    · rw [if_neg hc]
      simp only [List.mem_cons, ih]
      tauto

/-- Sort-model helper: sorting keeps exactly the input elements. -/
theorem mem_sortDescBy {α : Type} (key : α → Nat) (a : α) (l : List α) :
    a ∈ sortDescBy key l ↔ a ∈ l := by
  induction l with
  | nil => simp [sortDescBy]
  | cons x xs ih => simp [sortDescBy, mem_insertDescBy, ih]

/-- Sort-model helper: inserting into a descending list keeps it
descending. -/
theorem pairwise_insertDescBy {α : Type} (key : α → Nat) (e : α) (l : List α)
    (h : l.Pairwise (fun a b => key b ≤ key a)) :
    (insertDescBy key e l).Pairwise (fun a b => key b ≤ key a) := by
  induction l with
  | nil => simp [insertDescBy]
  | cons x xs ih =>
    rw [List.pairwise_cons] at h
    obtain ⟨hx, hxs⟩ := h
    unfold insertDescBy
    by_cases hc : key x ≤ key e
    · rw [if_pos hc]
      rw [List.pairwise_cons]
      refine ⟨?_, List.pairwise_cons.mpr ⟨hx, hxs⟩⟩
      intro b hb
      rcases List.mem_cons.mp hb with rfl | hbx
      · exact hc
      · exact le_trans (hx b hbx) hc
    · rw [if_neg hc]
      rw [List.pairwise_cons]
      refine ⟨?_, ih hxs⟩
      intro b hb
      rcases (mem_insertDescBy key e b xs).mp hb with rfl | hbx
      · omega
      · exact hx b hbx

/-- Sort-model helper: the sorted list is descending in the key. -/
theorem pairwise_sortDescBy {α : Type} (key : α → Nat) (l : List α) :
    (sortDescBy key l).Pairwise (fun a b => key b ≤ key a) := by
  induction l with
  | nil => simp [sortDescBy]
  | cons x xs ih => exact pairwise_insertDescBy key x _ ih

/-- C5 (amended): when the search-index filter is active the returned
records are the base events restricted to the key set produced by the
search-index subquery, but in the primary query's own `block_id`
descending order — the `IN` predicate controls membership only, it does
not impose the search-index `sorting_value` order on the results. -/
theorem c5_search_index_membership_and_order (events : List EventRec)
    (sidx : List SearchIndexRec) (cats : List Nat) (acct : Option Str)
    (addr decoded : Str) (fm fe : Option Str) :
    (eventsListSearchIndexQuery events sidx cats acct).Pairwise
      (fun a b => b.block_id ≤ a.block_id) ∧
    (∀ e, e ∈ eventsListSearchIndexQuery events sidx cats acct ↔
      e ∈ events ∧ eventKey e ∈ searchIndexExpand sidx cats acct) ∧
    (hexPairs (replace0x addr) = some decoded →
      eventsListApplyFilters events sidx (some addr) (some cats) fm fe =
        some (eventsListSearchIndexQuery events sidx cats (some decoded))) ∧
    (eventsListApplyFilters events sidx none (some cats) fm fe =
      some (eventsListSearchIndexQuery events sidx cats none)) := by
  refine ⟨?_, ?_, ?_, ?_⟩
  · exact List.Pairwise.filter _ (pairwise_sortDescBy (fun e => e.block_id) events)
  · intro e
    unfold eventsListSearchIndexQuery
    rw [List.mem_filter]
    unfold eventsBaseQuery
    rw [mem_sortDescBy]
    simp
  · intro hdec
    simp only [eventsListApplyFilters, hdec, Option.map_some', Option.bind_eq_bind,
      Option.some_bind, Option.pure_def]
  · rfl

/-- C5 witness: the amended theorem applied to a concrete store in which
the search-index order and the block order disagree. -/
theorem c5_search_index_membership_and_order_witness :
    (eventsListSearchIndexQuery
        [⟨5, 0, 0, "m".toList, "E".toList, []⟩, ⟨7, 0, 0, "m".toList, "E".toList, []⟩]
        [⟨1, some "a".toList, 5, 0, 20⟩, ⟨1, some "a".toList, 7, 0, 10⟩]
        [1] (some "a".toList)).Pairwise (fun a b => b.block_id ≤ a.block_id) ∧
    ((⟨5, 0, 0, "m".toList, "E".toList, []⟩ : EventRec) ∈
        eventsListSearchIndexQuery
          [⟨5, 0, 0, "m".toList, "E".toList, []⟩, ⟨7, 0, 0, "m".toList, "E".toList, []⟩]
          [⟨1, some "a".toList, 5, 0, 20⟩, ⟨1, some "a".toList, 7, 0, 10⟩]
          [1] (some "a".toList)) ∧
    eventsListApplyFilters
        [⟨5, 0, 0, "m".toList, "E".toList, []⟩, ⟨7, 0, 0, "m".toList, "E".toList, []⟩]
        [⟨1, some "a".toList, 5, 0, 20⟩, ⟨1, some "a".toList, 7, 0, 10⟩]
        (some "61".toList) (some [1]) none none =
      some (eventsListSearchIndexQuery
        [⟨5, 0, 0, "m".toList, "E".toList, []⟩, ⟨7, 0, 0, "m".toList, "E".toList, []⟩]
        [⟨1, some "a".toList, 5, 0, 20⟩, ⟨1, some "a".toList, 7, 0, 10⟩]
        [1] (some "a".toList)) := by
  refine ⟨(c5_search_index_membership_and_order
      [⟨5, 0, 0, "m".toList, "E".toList, []⟩, ⟨7, 0, 0, "m".toList, "E".toList, []⟩]
      [⟨1, some "a".toList, 5, 0, 20⟩, ⟨1, some "a".toList, 7, 0, 10⟩]
      [1] (some "a".toList) [] [] none none).1, ?_, ?_⟩
  · exact ((c5_search_index_membership_and_order
      [⟨5, 0, 0, "m".toList, "E".toList, []⟩, ⟨7, 0, 0, "m".toList, "E".toList, []⟩]
      [⟨1, some "a".toList, 5, 0, 20⟩, ⟨1, some "a".toList, 7, 0, 10⟩]
      [1] (some "a".toList) [] [] none none).2.1 _).mpr ⟨by decide, by decide⟩
  · exact (c5_search_index_membership_and_order
      [⟨5, 0, 0, "m".toList, "E".toList, []⟩, ⟨7, 0, 0, "m".toList, "E".toList, []⟩]
      [⟨1, some "a".toList, 5, 0, 20⟩, ⟨1, some "a".toList, 7, 0, 10⟩]
      [1] (some "a".toList) "61".toList "a".toList none none).2.2.1 (by decide)

/-- C5 counterexample: with two indexed events whose `sorting_value` order
is the reverse of their `block_id` order, the returned record order is the
block order, not the search-index order — refuting the claim that the
result order always equals the `sorting_value`-descending order. -/
theorem c5_counterexample :
    searchIndexExpand
        [⟨1, some "a".toList, 5, 0, 20⟩, ⟨1, some "a".toList, 7, 0, 10⟩]
        [1] (some "a".toList) = [(5, 0), (7, 0)] ∧
    (eventsListApplyFilters
        [⟨5, 0, 0, "m".toList, "E".toList, []⟩, ⟨7, 0, 0, "m".toList, "E".toList, []⟩]
        [⟨1, some "a".toList, 5, 0, 20⟩, ⟨1, some "a".toList, 7, 0, 10⟩]
        (some "61".toList) (some [1]) none none).map (List.map eventKey) =
      some [(7, 0), (5, 0)] ∧
    (eventsListApplyFilters
        [⟨5, 0, 0, "m".toList, "E".toList, []⟩, ⟨7, 0, 0, "m".toList, "E".toList, []⟩]
        [⟨1, some "a".toList, 5, 0, 20⟩, ⟨1, some "a".toList, 7, 0, 10⟩]
        (some "61".toList) (some [1]) none none).map (List.map eventKey) ≠
      some (searchIndexExpand
        [⟨1, some "a".toList, 5, 0, 20⟩, ⟨1, some "a".toList, 7, 0, 10⟩]
        [1] (some "a".toList)) := by
  exact ⟨by decide, by decide, by decide⟩

/-- C6 (amended): composite-key detail resources that guard the segment
count (such as `ExtrinsicDetailResource`) resolve a two-segment id through
the composite primary key and yield `NotFound` (never an error) on any
other segment count; `BalanceTransferDetailResource.get_item` passes the
split segments to the store lookup unguarded and raises the
wrong-key-count error for any id without exactly two segments. -/
theorem c6_composite_detail_lookup (exts : List ExtrinsicRec)
    (events : List EventRec) (item_id p1 p2 : Str) (b i : Nat) :
    (item_id.take 2 ≠ "0x".toList → (splitDash item_id).length ≠ 2 →
      extrinsicDetailGetItem exts item_id = .ok none) ∧
    (∃ r, extrinsicDetailGetItem exts item_id = .ok r) ∧
    (item_id.take 2 ≠ "0x".toList → splitDash item_id = [p1, p2] →
      natOfStr p1 = some b → natOfStr p2 = some i →
      extrinsicDetailGetItem exts item_id = .ok (findExtrinsicByKey exts b i)) ∧
    ((splitDash item_id).length ≠ 2 →
      balanceTransferDetailGetItem events item_id =
        .error GetError.wrongKeyCount) := by
  refine ⟨?_, ?_, ?_, ?_⟩
  · intro hpre hlen
    unfold extrinsicDetailGetItem
    rw [if_neg hpre, if_pos hlen]
  · unfold extrinsicDetailGetItem
    by_cases hpre : item_id.take 2 = "0x".toList
    · exact ⟨_, by rw [if_pos hpre]⟩
    · rw [if_neg hpre]
      by_cases hlen : (splitDash item_id).length = 2
      · rw [if_neg (by omega)]
        rcases hsp : splitDash item_id with _ | ⟨q1, _ | ⟨q2, _ | ⟨q3, tl3⟩⟩⟩
        · simp [hsp] at hlen
        · simp [hsp] at hlen
        · unfold compositeGet2
          exact ⟨_, rfl⟩
        · simp [hsp] at hlen
      · rw [if_pos hlen]
        exact ⟨none, rfl⟩
  · intro hpre hsp hb hi
    unfold extrinsicDetailGetItem
    rw [if_neg hpre, hsp]
    rw [if_neg (by simp)]
    simp [compositeGet2, hb, hi]
  · intro hlen
    unfold balanceTransferDetailGetItem compositeGet2
    rcases hsp : splitDash item_id with _ | ⟨q1, _ | ⟨q2, _ | ⟨q3, tl3⟩⟩⟩
    · rfl
    · rfl
    · simp [hsp] at hlen
    · rfl

/-- C6 witness: the amended theorem applied to the spec examples — the id
`1000-2` resolves through the composite key `(1000, 2)` and the
one-segment id `abc` yields `NotFound` on the guarded resource. -/
theorem c6_composite_detail_lookup_witness :
    extrinsicDetailGetItem [⟨1000, 2, "aa".toList⟩] "1000-2".toList =
      .ok (some ⟨1000, 2, "aa".toList⟩) ∧
    extrinsicDetailGetItem [⟨1000, 2, "aa".toList⟩] "abc".toList = .ok none := by
  constructor
  · have h := (c6_composite_detail_lookup [⟨1000, 2, "aa".toList⟩] []
      "1000-2".toList "1000".toList "2".toList 1000 2).2.2.1
      (by decide) (by decide) (by decide) (by decide)
    rw [h]
    rfl
  · exact (c6_composite_detail_lookup [⟨1000, 2, "aa".toList⟩] []
      "abc".toList [] [] 0 0).1 (by decide) (by decide)

/-- C6 counterexample: `BalanceTransferDetailResource.get_item` has no
segment-count guard, so the one-segment id `abc` raises the store's
wrong-key-count error instead of yielding `NotFound`. -/
theorem c6_counterexample :
    splitDash "abc".toList = ["abc".toList] ∧
    balanceTransferDetailGetItem [] "abc".toList =
      .error GetError.wrongKeyCount := by
  exact ⟨by decide, rfl⟩


/-- JWT-loop helper: a payload is produced only when the token's key is
among the tried keys, the token is not expired, and the payload is the
token's own. -/
theorem decodeLoop_gotPayload (tok : Token) (keys : List Str) (p : TokenPayload)
    (h : decodeLoop tok keys = .gotPayload p) :
    tok.key ∈ keys ∧ tok.expired = false ∧ p = tok.payload := by
  induction keys with
  | nil => simp [decodeLoop] at h
  | cons k ks ih =>
    by_cases hk : tok.key = k
    · by_cases he : tok.expired
      · simp only [decodeLoop, jwtDecode, if_neg (by simp [hk] : ¬ tok.key ≠ k),
          if_pos he] at h
        simp at h
      · simp only [decodeLoop, jwtDecode, if_neg (by simp [hk] : ¬ tok.key ≠ k),
          if_neg he] at h
        cases h
        exact ⟨by simp [hk], by simpa using he, rfl⟩
    · simp only [decodeLoop, jwtDecode, if_pos (by simp [hk] : tok.key ≠ k)] at h
      obtain ⟨h1, h2, h3⟩ := ih h
      exact ⟨List.mem_cons_of_mem _ h1, h2, h3⟩

/-- JWT-loop helper: when no tried key is the token's key, every decode
attempt raises `InvalidSignatureError` and the loop leaves `token_data`
falsy. -/
theorem decodeLoop_not_mem (tok : Token) (keys : List Str)
    (h : tok.key ∉ keys) : decodeLoop tok keys = .noMatch := by
  induction keys with
  | nil => rfl
  | cons k ks ih =>
    have hk : tok.key ≠ k := fun e => h (by simp [e])
    simp only [decodeLoop, jwtDecode, if_pos hk]
    exact ih (fun hm => h (List.mem_cons_of_mem _ hm))

/-- JWT-loop helper: an expired token either matches no key or raises
`ExpiredSignatureError` out of the loop. -/
theorem decodeLoop_expired (tok : Token) (keys : List Str)
    (he : tok.expired = true) :
    decodeLoop tok keys = .noMatch ∨ decodeLoop tok keys = .raisedExpired := by
  induction keys with
  | nil => left; rfl
  | cons k ks ih =>
    by_cases hk : tok.key = k
    · right
      simp only [decodeLoop, jwtDecode, if_neg (by simp [hk] : ¬ tok.key ≠ k),
        if_pos he]
    · simp only [decodeLoop, jwtDecode, if_pos (by simp [hk] : tok.key ≠ k)]
      exact ih

/-- C7 (amended): `validateToken` returns the anonymous result for a
missing token, for a token whose signature verifies under none of the
configured keys, for an expired token, and for an untrusted (or absent)
issuer; it returns an authenticated payload only for an unexpired token
verified by a configured key whose trusted-issuer payload carries the
`data` claim; and the explicit-DID history endpoint answers 400 when the
`did` path parameter is absent. (A verified trusted token without the
`data` claim makes `validateToken` raise — see the counterexample.) -/
theorem c7_auth_degradation (keys issuers : List Str) (token : Option Token)
    (tok : Token) (dta : UserData) (maskLen didLen : Nat)
    (events : List EventRec) (blocks : List BlockRec) :
    (validateToken keys issuers none = .anon) ∧
    (token = some tok → tok.key ∉ keys →
      validateToken keys issuers token = .anon) ∧
    (token = some tok → tok.expired = true →
      validateToken keys issuers token = .anon) ∧
    (token = some tok → (∀ i, tok.payload.iss = some i → i ∉ issuers) →
      validateToken keys issuers token = .anon) ∧
    (validateToken keys issuers token = .auth dta →
      ∃ tk, token = some tk ∧ tk.key ∈ keys ∧ tk.expired = false ∧
        ∃ i, tk.payload.iss = some i ∧ i ∈ issuers ∧
          tk.payload.data = some dta) ∧
    (validateToken keys issuers token ≠ .raised →
      historyDetailOnGet maskLen didLen keys issuers token events blocks none =
        some ⟨400, [], some requiredDidError⟩) := by
  refine ⟨rfl, ?_, ?_, ?_, ?_, ?_⟩
  · rintro rfl hk
    by_cases hkeys : keys = []
    · simp only [validateToken, if_pos hkeys]
    · simp only [validateToken, if_neg hkeys, decodeLoop_not_mem tok keys hk]
  · rintro rfl he
    by_cases hkeys : keys = []
    · simp only [validateToken, if_pos hkeys]
    · rcases decodeLoop_expired tok keys he with hd | hd
      · simp only [validateToken, if_neg hkeys, hd]
      · simp only [validateToken, if_neg hkeys, hd]
  · rintro rfl hiss
    by_cases hkeys : keys = []
    · simp only [validateToken, if_pos hkeys]
    · rcases hd : decodeLoop tok keys with _ | p | _
      · simp only [validateToken, if_neg hkeys, hd]
      · obtain ⟨_, _, hp⟩ := decodeLoop_gotPayload tok keys p hd
        rcases hi : p.iss with _ | i
        · simp only [validateToken, if_neg hkeys, hd, hi]
        · have hni : i ∉ issuers := hiss i (by rw [← hp]; exact hi)
          simp only [validateToken, if_neg hkeys, hd, hi, if_neg hni]
      · simp only [validateToken, if_neg hkeys, hd]
  · intro h
    cases token with
    | none => simp [validateToken] at h
    | some tok2 =>
      by_cases hkeys : keys = []
      · simp only [validateToken, if_pos hkeys] at h; simp at h
      · rcases hd : decodeLoop tok2 keys with _ | p | _
        · simp only [validateToken, if_neg hkeys, hd] at h; simp at h
        · simp only [validateToken, if_neg hkeys, hd] at h
          obtain ⟨h1, h2, h3⟩ := decodeLoop_gotPayload tok2 keys p hd
          rcases hiss : p.iss with _ | i
          · simp only [hiss] at h
            simp at h
          · simp only [hiss] at h
            by_cases hin : i ∈ issuers
            · rw [if_pos hin] at h
              rcases hdata : p.data with _ | d
              · simp only [hdata] at h
                simp at h
              · simp only [hdata] at h
                cases h
                exact ⟨tok2, rfl, h1, h2, i, by rw [← h3]; exact hiss, hin,
                  by rw [← h3]; exact hdata⟩
            · rw [if_neg hin] at h; simp at h
        · simp only [validateToken, if_neg hkeys, hd] at h; simp at h
  · intro hnr
    simp only [historyDetailOnGet, if_neg hnr]

/-- C7 witness: the amended theorem applied to concrete tokens — a
missing token, a token signed with an unknown key, an expired token, a
token from an untrusted issuer (all anonymous), a fully valid token
(authenticated), and the endpoint 400 answer. -/
theorem c7_auth_degradation_witness :
    validateToken ["k".toList] ["iss1".toList] none = .anon ∧
    validateToken ["k".toList] ["iss1".toList]
      (some ⟨"other".toList, false, ⟨some "iss1".toList,
        some ⟨some "did:a".toList⟩⟩⟩) = .anon ∧
    validateToken ["k".toList] ["iss1".toList]
      (some ⟨"k".toList, true, ⟨some "iss1".toList,
        some ⟨some "did:a".toList⟩⟩⟩) = .anon ∧
    validateToken ["k".toList] ["iss1".toList]
      (some ⟨"k".toList, false, ⟨some "bad".toList,
        some ⟨some "did:a".toList⟩⟩⟩) = .anon ∧
    (∃ tk, some tk = some (⟨"k".toList, false, ⟨some "iss1".toList,
        some ⟨some "did:a".toList⟩⟩⟩ : Token) ∧
      tk.key ∈ ["k".toList] ∧ tk.expired = false ∧
      ∃ i, tk.payload.iss = some i ∧ i ∈ ["iss1".toList] ∧
        tk.payload.data = some ⟨some "did:a".toList⟩) ∧
    historyDetailOnGet 4 32 ["k".toList] ["iss1".toList] none [] [] none =
      some ⟨400, [], some requiredDidError⟩ := by
  refine ⟨(c7_auth_degradation ["k".toList] ["iss1".toList] none
      ⟨[], false, ⟨none, none⟩⟩ ⟨none⟩ 4 32 [] []).1, ?_, ?_, ?_, ?_, ?_⟩
  · exact (c7_auth_degradation ["k".toList] ["iss1".toList] _
      ⟨"other".toList, false, ⟨some "iss1".toList, some ⟨some "did:a".toList⟩⟩⟩
      ⟨none⟩ 4 32 [] []).2.1 rfl (by decide)
  · exact (c7_auth_degradation ["k".toList] ["iss1".toList] _
      ⟨"k".toList, true, ⟨some "iss1".toList, some ⟨some "did:a".toList⟩⟩⟩
      ⟨none⟩ 4 32 [] []).2.2.1 rfl (by decide)
  · exact (c7_auth_degradation ["k".toList] ["iss1".toList] _
      ⟨"k".toList, false, ⟨some "bad".toList, some ⟨some "did:a".toList⟩⟩⟩
      ⟨none⟩ 4 32 [] []).2.2.2.1 rfl (by decide)
  · obtain ⟨tk, htk, hrest⟩ := (c7_auth_degradation ["k".toList] ["iss1".toList]
      (some ⟨"k".toList, false, ⟨some "iss1".toList, some ⟨some "did:a".toList⟩⟩⟩)
      ⟨[], false, ⟨none, none⟩⟩ ⟨some "did:a".toList⟩ 4 32 [] []).2.2.2.2.1
      (by decide)
    exact ⟨tk, by rw [htk], hrest⟩
  · exact (c7_auth_degradation ["k".toList] ["iss1".toList] none
      ⟨[], false, ⟨none, none⟩⟩ ⟨none⟩ 4 32 [] []).2.2.2.2.2 (by decide)

/-- C7 counterexample: token validation can hard-fail — a well-formed
token verified by a trusted key with a trusted issuer but without a
`data` claim makes `validateToken` raise `KeyError` (uncaught), and the
history endpoint request carrying it fails outright instead of degrading
to anonymous. -/
theorem c7_counterexample :
    validateToken ["k".toList] ["iss1".toList]
      (some ⟨"k".toList, false, ⟨some "iss1".toList, none⟩⟩) =
      ValidateResult.raised ∧
    historyDetailOnGet 4 32 ["k".toList] ["iss1".toList]
      (some ⟨"k".toList, false, ⟨some "iss1".toList, none⟩⟩) [] []
      (some "did:a".toList) = none := by
  exact ⟨by decide, by decide⟩

/-- Cache-template helper: the four-part contract of the shared caching
code path — miss computes, stores and marks `MISS`; hit returns the
cached value unchanged, does not consult the store and marks `HIT`; one
of the two headers is always set; and a second identical request within
the expiration window of a miss returns the identical body as a hit. -/
theorem cachedOnGet_spec (ttl : Nat) (m1 m2 : Media) (region : List CacheEntry)
    (method url : Str) (now now2 : Nat) :
    (cacheGet region (cacheKey method url) ttl now = none →
      cachedOnGet ttl m1 region method url now =
        (⟨200, some "MISS".toList, m1⟩,
         cacheSet region (cacheKey method url) m1 now)) ∧
    (∀ v, cacheGet region (cacheKey method url) ttl now = some v →
      cachedOnGet ttl m1 region method url now =
        (⟨200, some "HIT".toList, v⟩, region) ∧
      (cachedOnGet ttl m1 region method url now).1 =
        (cachedOnGet ttl m2 region method url now).1) ∧
    ((cachedOnGet ttl m1 region method url now).1.xCache = some "MISS".toList ∨
     (cachedOnGet ttl m1 region method url now).1.xCache = some "HIT".toList) ∧
    ((cachedOnGet ttl m1 region method url now).1.xCache = some "MISS".toList →
      now ≤ now2 → now2 ≤ now + ttl →
      (cachedOnGet ttl m1 ((cachedOnGet ttl m1 region method url now).2)
          method url now2).1.media =
        (cachedOnGet ttl m1 region method url now).1.media ∧
      (cachedOnGet ttl m1 ((cachedOnGet ttl m1 region method url now).2)
          method url now2).1.xCache = some "HIT".toList) := by
  refine ⟨?_, ?_, ?_, ?_⟩
  · intro hc
    unfold cachedOnGet
    rw [hc]
  · intro v hc
    unfold cachedOnGet
    rw [hc]
    exact ⟨rfl, rfl⟩
  · unfold cachedOnGet
    rcases hc : cacheGet region (cacheKey method url) ttl now with _ | v
    · left; rfl
    · right; rfl
  · intro hmiss h1 h2
    rcases hc : cacheGet region (cacheKey method url) ttl now with _ | v
    · have hrun : cachedOnGet ttl m1 region method url now =
          (⟨200, some "MISS".toList, m1⟩,
           cacheSet region (cacheKey method url) m1 now) := by
        unfold cachedOnGet
        rw [hc]
      rw [hrun]
      have hget2 : cacheGet (cacheSet region (cacheKey method url) m1 now)
          (cacheKey method url) ttl now2 = some m1 := by
        unfold cacheGet cacheSet
        rw [List.find?_cons_of_pos _ (by simp)]
        simp only [Option.some_bind]
        rw [if_pos (by omega)]
      unfold cachedOnGet
      rw [hget2]
      exact ⟨rfl, rfl⟩
    · exfalso
      have : cachedOnGet ttl m1 region method url now =
          (⟨200, some "HIT".toList, v⟩, region) := by
        unfold cachedOnGet
        rw [hc]
      rw [this] at hmiss
      simp at hmiss

/-- C8: both statistics handlers follow the cache contract — a miss
computes the body from the store, caches it and sets `X-Cache: MISS`; a
hit returns the cached body without consulting the store and sets
`X-Cache: HIT`; one of the two headers is set on every response; and a
repeat of a missed request within the TTL window (6 seconds for
`StatsResource`, 60 for `NetworkStatisticsResource`) hits and returns the
identical body. -/
theorem c8_cache_contract (stats stats2 : Str → Option StatsRec)
    (region : List CacheEntry) (method url : Str) (now now2 : Nat) (cid : Str) :
    ((cacheGet region (cacheKey method url) 6 now = none →
      statsOnGet stats region method url now cid =
        (⟨200, some "MISS".toList, statsMediaOf stats cid⟩,
         cacheSet region (cacheKey method url) (statsMediaOf stats cid) now)) ∧
    (∀ v, cacheGet region (cacheKey method url) 6 now = some v →
      statsOnGet stats region method url now cid =
        (⟨200, some "HIT".toList, v⟩, region) ∧
      (statsOnGet stats region method url now cid).1 =
        (statsOnGet stats2 region method url now cid).1) ∧
    ((statsOnGet stats region method url now cid).1.xCache =
        some "MISS".toList ∨
     (statsOnGet stats region method url now cid).1.xCache =
        some "HIT".toList) ∧
    ((statsOnGet stats region method url now cid).1.xCache =
        some "MISS".toList →
      now ≤ now2 → now2 ≤ now + 6 →
      (statsOnGet stats ((statsOnGet stats region method url now cid).2)
          method url now2 cid).1.media =
        (statsOnGet stats region method url now cid).1.media ∧
      (statsOnGet stats ((statsOnGet stats region method url now cid).2)
          method url now2 cid).1.xCache = some "HIT".toList)) ∧
    ((cacheGet region (cacheKey method url) 60 now = none →
      networkStatsOnGet stats region method url now cid =
        (⟨200, some "MISS".toList, networkStatsMediaOf stats cid⟩,
         cacheSet region (cacheKey method url)
           (networkStatsMediaOf stats cid) now)) ∧
    (∀ v, cacheGet region (cacheKey method url) 60 now = some v →
      networkStatsOnGet stats region method url now cid =
        (⟨200, some "HIT".toList, v⟩, region) ∧
      (networkStatsOnGet stats region method url now cid).1 =
        (networkStatsOnGet stats2 region method url now cid).1) ∧
    ((networkStatsOnGet stats region method url now cid).1.xCache =
        some "MISS".toList ∨
     (networkStatsOnGet stats region method url now cid).1.xCache =
        some "HIT".toList) ∧
    ((networkStatsOnGet stats region method url now cid).1.xCache =
        some "MISS".toList →
      now ≤ now2 → now2 ≤ now + 60 →
      (networkStatsOnGet stats
          ((networkStatsOnGet stats region method url now cid).2)
          method url now2 cid).1.media =
        (networkStatsOnGet stats region method url now cid).1.media ∧
      (networkStatsOnGet stats
          ((networkStatsOnGet stats region method url now cid).2)
          method url now2 cid).1.xCache = some "HIT".toList)) := by
  exact ⟨cachedOnGet_spec 6 (statsMediaOf stats cid) (statsMediaOf stats2 cid)
      region method url now now2,
    cachedOnGet_spec 60 (networkStatsMediaOf stats cid)
      (networkStatsMediaOf stats2 cid) region method url now now2⟩

/-- C8 witness: the theorem applied to a concrete empty cache (miss path,
repeat within the window) and a concrete pre-warmed cache (hit path). -/
theorem c8_cache_contract_witness :
    (statsOnGet (fun _ => none) [] "GET".toList "u".toList 0 "metamui".toList =
      (⟨200, some "MISS".toList, statsMediaOf (fun _ => none) "metamui".toList⟩,
       cacheSet [] (cacheKey "GET".toList "u".toList)
         (statsMediaOf (fun _ => none) "metamui".toList) 0)) ∧
    (statsOnGet (fun _ => none)
        ((statsOnGet (fun _ => none) [] "GET".toList "u".toList 0
          "metamui".toList).2) "GET".toList "u".toList 3
        "metamui".toList).1.xCache = some "HIT".toList ∧
    (statsOnGet (fun _ => none)
        [⟨cacheKey "GET".toList "u".toList, Media.raw (AVal.avn 9), 0⟩]
        "GET".toList "u".toList 1 "metamui".toList).1 =
      (statsOnGet (fun s => some ⟨s, [], [], [], 0, 0, 0⟩)
        [⟨cacheKey "GET".toList "u".toList, Media.raw (AVal.avn 9), 0⟩]
        "GET".toList "u".toList 1 "metamui".toList).1 := by
  refine ⟨?_, ?_, ?_⟩
  · exact (c8_cache_contract (fun _ => none) (fun _ => none) [] "GET".toList
      "u".toList 0 0 "metamui".toList).1.1 (by decide)
  · exact ((c8_cache_contract (fun _ => none) (fun _ => none) [] "GET".toList
      "u".toList 0 3 "metamui".toList).1.2.2.2 (by decide) (by decide)
      (by decide)).2
  · exact ((c8_cache_contract (fun _ => none) (fun s => some ⟨s, [], [], [], 0, 0, 0⟩)
      [⟨cacheKey "GET".toList "u".toList, Media.raw (AVal.avn 9), 0⟩]
      "GET".toList "u".toList 1 0 "metamui".toList).1.2.1
      (Media.raw (AVal.avn 9)) (by decide)).2

/-- C9 (amended): `StatsResource` and `NetworkStatisticsResource` answer
with a fixed attribute-key shape — populated from the stats row when it
exists and the same keys each set to `N/A` when it does not;
`MetamuiStatisticsDetailResource` instead answers with a bare string
`Requested data not found` (no attribute object) when the row is
missing. -/
theorem c9_stats_sentinel_shape (stats : Str → Option StatsRec) (cid : Str)
    (st : StatsRec) (field : Option Str) :
    (mediaAttribKeys (statsMediaOf stats cid) = some statsKeys) ∧
    (stats cid = none → statsMediaOf stats cid =
      .obj ⟨"currency_stats".toList, cid,
        statsKeys.map (fun k => (k, notAvailable))⟩) ∧
    (stats cid = some st → statsMediaOf stats cid =
      .obj ⟨"currency_stats".toList, cid,
        [("currency_id".toList, .avs st.sid),
         ("token_name".toList, .avs st.token_name),
         ("official_site".toList, .avs st.site),
         ("currency_decimals".toList, .avn st.decimals),
         ("current_circulation".toList, .avn st.current_circulation),
         ("total_supply".toList, .avn st.total_supply)]⟩) ∧
    (mediaAttribKeys (networkStatsMediaOf stats cid) = some networkStatsKeys) ∧
    (stats cid = none → networkStatsMediaOf stats cid =
      .obj ⟨"currency_stats".toList, cid,
        networkStatsKeys.map (fun k => (k, notAvailable))⟩) ∧
    (stats "metamui".toList = none →
      metamuiMediaOf stats field = requestedDataNotFound ∧
      mediaAttribKeys (metamuiMediaOf stats field) = none) := by
  refine ⟨?_, ?_, ?_, ?_, ?_, ?_⟩
  · unfold statsMediaOf
    rcases stats cid with _ | st2
    · simp [mediaAttribKeys, statsKeys]
    · simp [mediaAttribKeys, statsKeys]
  · intro hnone
    unfold statsMediaOf
    rw [hnone]
  · intro hsome
    unfold statsMediaOf
    rw [hsome]
  · unfold networkStatsMediaOf
    rcases stats cid with _ | st2
    · simp [mediaAttribKeys, networkStatsKeys]
    · simp [mediaAttribKeys, networkStatsKeys]
  · intro hnone
    unfold networkStatsMediaOf
    rw [hnone]
  · intro hnone
    unfold metamuiMediaOf
    rw [hnone]
    exact ⟨rfl, rfl⟩

/-- C9 witness: the amended theorem applied to the empty store and a
populated store. -/
theorem c9_stats_sentinel_shape_witness :
    statsMediaOf (fun _ => none) "metamui".toList =
      .obj ⟨"currency_stats".toList, "metamui".toList,
        statsKeys.map (fun k => (k, notAvailable))⟩ ∧
    statsMediaOf (fun s => some ⟨s, "MUI".toList, "M".toList, "s".toList, 6, 1, 2⟩)
        "metamui".toList =
      .obj ⟨"currency_stats".toList, "metamui".toList,
        [("currency_id".toList, .avs "metamui".toList),
         ("token_name".toList, .avs "MUI".toList),
         ("official_site".toList, .avs "s".toList),
         ("currency_decimals".toList, .avn 6),
         ("current_circulation".toList, .avn 1),
         ("total_supply".toList, .avn 2)]⟩ ∧
    metamuiMediaOf (fun _ => none) (some "total_supply".toList) =
      requestedDataNotFound := by
  refine ⟨?_, ?_, ?_⟩
  · exact (c9_stats_sentinel_shape (fun _ => none) "metamui".toList
      ⟨[], [], [], [], 0, 0, 0⟩ none).2.1 rfl
  · exact (c9_stats_sentinel_shape
      (fun s => some ⟨s, "MUI".toList, "M".toList, "s".toList, 6, 1, 2⟩)
      "metamui".toList
      ⟨"metamui".toList, "MUI".toList, "M".toList, "s".toList, 6, 1, 2⟩ none).2.2.1
      rfl
  · exact ((c9_stats_sentinel_shape (fun _ => none) "metamui".toList
      ⟨[], [], [], [], 0, 0, 0⟩ (some "total_supply".toList)).2.2.2.2.2 rfl).1

/-- C9 counterexample: for the metamui statistics detail endpoint the
empty-store response is the bare string `Requested data not found` — it
has no attribute keys at all, so it is not a same-shape sentinel object
with `N/A` values. -/
theorem c9_counterexample :
    metamuiMediaOf (fun _ => none) (some "total_supply".toList) =
      Media.raw (AVal.avs "Requested data not found".toList) ∧
    mediaAttribKeys (metamuiMediaOf (fun _ => none)
      (some "total_supply".toList)) = none ∧
    mediaAttribKeys (statsMediaOf (fun _ => none) "metamui".toList) =
      some statsKeys := by
  exact ⟨rfl, rfl, by decide⟩


/-- C2 witness: the theorem instantiated at the modelled configuration and
a concrete DID string. -/
theorem c2_mask_witness :
    STR_MASK_LEN ≤ STR_DID_LEN ∧
      (maskStr STR_MASK_LEN STR_DID_LEN ("did:ssid:alice".toList)).length = STR_DID_LEN :=
  ⟨by decide,
   (c2_mask_idempotent_and_width STR_MASK_LEN STR_DID_LEN ("did:ssid:alice".toList)).2
     (by decide)⟩

end Polkascan
